import Mathlib

/-!
Verification of the Hardware-Monitoring repository's metrics collection and
broadcast core.  Each definition below is a shallow embedding of a Python
function from `src/`:

* `WebServer` — `src/web_server.py` (ConnectionManager, the per-domain
  metric collectors `get_cpu_data`, `get_memory_data`, `get_disk_data`,
  `get_network_data`, `get_gpu_data`, and `get_all_metrics`);
* `Inventory` — `src/inventory.py` (the one-shot collectors and
  `collect_inventory`);
* `GpuUtils` — `src/utils/gpu_utils.py` (the dual GPU probing paths with
  their subprocess calls);
* `Monitor` — `src/monitor.py` (the terminal dashboard's table builders).

External effects (psutil calls, pynvml calls, subprocess invocations) are
modelled as explicit inputs: a call that can raise is an `Except Unit`
value (`.error ()` = the call raised), and a subprocess invocation is an
oracle outcome together with a recorded `SubprocessCall` describing the
arguments and timeout the code passed.  Python floats are modelled as `ℚ`
and byte counters as `ℤ` (so that out-of-range probe readings are
representable).  Python dicts with a fixed literal key set are modelled as
Lean structures whose field names mirror the dict keys; the GPU metric
dicts, whose key set is the subject of a refinement claim, are modelled as
ordered association lists instead.
-/

namespace WebServer

/-! ### ConnectionManager (`web_server.py` lines 50–85)

A WebSocket connection is identified by an abstract handle; `α` below.
`active_connections` is a Python list, modelled as `List α`.  Whether
`connection.send_json(data)` succeeds for a given connection during one
broadcast call is modelled by a predicate `sendOk : α → Bool`. -/

/-- Model of `ConnectionManager.disconnect` (`web_server.py` lines 65–71):
removes the connection from `active_connections` if present
(`list.remove` removes the first occurrence); otherwise leaves the list
unchanged.  The membership guard means the call never raises. -/
def disconnect {α : Type} [DecidableEq α] (ws : α) (conns : List α) : List α :=
  if ws ∈ conns then conns.erase ws else conns

/-- Result of one `ConnectionManager.broadcast` call:  the connections that
were given a `send_json` attempt, those whose send succeeded, those whose
send raised (collected in the `disconnected` local), and the
`active_connections` list after the trailing removal loop. -/
structure BroadcastResult (α : Type) where
  attempted : List α
  delivered : List α
  failed : List α
  final : List α
  deriving Repr, DecidableEq

/-- The send loop of `ConnectionManager.broadcast` (`web_server.py` lines
75–81): iterates over `active_connections`, tries `send_json` on each, and
appends the connection to `disconnected` when the send raises.  Returns
(attempted, delivered, disconnected) in iteration order. -/
def broadcastLoop {α : Type} (sendOk : α → Bool) : List α → List α × List α × List α
  | [] => ([], [], [])
  | c :: rest =>
      let r := broadcastLoop sendOk rest
      if sendOk c then (c :: r.1, c :: r.2.1, r.2.2)
      else (c :: r.1, r.2.1, c :: r.2.2)

/-- Model of `ConnectionManager.broadcast` (`web_server.py` lines 73–85): runs the
send loop over the current `active_connections`, then calls `disconnect`
on each connection collected in `disconnected`, mutating
`active_connections` in place (modelled by a fold). -/
def broadcast {α : Type} [DecidableEq α] (sendOk : α → Bool) (conns : List α) :
    BroadcastResult α :=
  let r := broadcastLoop sendOk conns
  { attempted := r.1
    delivered := r.2.1
    failed := r.2.2
    final := r.2.2.foldl (fun acc c => disconnect c acc) conns }

end WebServer

namespace GpuUtils

/-! ### `src/utils/gpu_utils.py` -/

/-- The `GPUInfo` container class (`gpu_utils.py` lines 17–42). -/
structure GPUInfo where
  name : String
  driver_version : String
  cuda_version : Option String
  total_memory : ℤ
  index : ℤ
  deriving Repr, DecidableEq

/-- A JSON-like scalar appearing as a value of a GPU metrics dict:
a Python number, or Python `None`. -/
inductive JVal
  | num (q : ℚ)
  | null
  deriving Repr, DecidableEq

/-- A Python dict with string keys, in insertion order. -/
abbrev MetricsDict := List (String × JVal)

/-- Model of `dict.get(key, default)`. -/
def dictGet (d : MetricsDict) (k : String) (dflt : JVal) : JVal :=
  match d.lookup k with
  | some v => v
  | none => dflt

/-- Splitting accumulator: Python `str.split(sep)` over a character list
(keeps empty fields, as Python does). -/
def splitOnCharAux (c : Char) : List Char → List Char → List (List Char)
  | [], acc => [acc.reverse]
  | x :: xs, acc =>
      if x = c then acc.reverse :: splitOnCharAux c xs []
      else splitOnCharAux c xs (x :: acc)

/-- Python `str.split(sep)` for a one-character separator. -/
def splitOnChar (c : Char) (cs : List Char) : List (List Char) :=
  splitOnCharAux c cs []

/-- Python `str.split(sep)` on a `String`. -/
def pySplit (c : Char) (s : String) : List String :=
  (splitOnChar c s.data).map List.asString

/-- Python `str.strip()`: drop leading and trailing whitespace. -/
def pyStrip (s : String) : String :=
  List.asString
    (((s.data.dropWhile Char.isWhitespace).reverse.dropWhile
        Char.isWhitespace).reverse)

/-- Python `int(...)` on a stripped CSV field: an optional sign followed
by digits; anything else raises `ValueError`, i.e. parses to `none`. -/
def pyToInt (s : String) : Option ℤ :=
  match s.data with
  | '-' :: rest =>
      if rest.isEmpty then none
      else if rest.all Char.isDigit then
        some (-(rest.foldl (fun n c => n * 10 + (c.toNat - 48)) 0 : ℕ) : ℤ)
      else none
  | '+' :: rest =>
      if rest.isEmpty then none
      else if rest.all Char.isDigit then
        some ((rest.foldl (fun n c => n * 10 + (c.toNat - 48)) 0 : ℕ) : ℤ)
      else none
  | rest =>
      if rest.isEmpty then none
      else if rest.all Char.isDigit then
        some ((rest.foldl (fun n c => n * 10 + (c.toNat - 48)) 0 : ℕ) : ℤ)
      else none

/-- One `subprocess.run` invocation as issued by the code: the argument
vector and the `timeout=` keyword it passed (`none` = no timeout). -/
structure SubprocessCall where
  args : List String
  timeout : Option ℚ
  deriving Repr, DecidableEq

/-- Outcome of a `subprocess.run` invocation, supplied by the environment:
the process completed with a return code and stdout text, or the call
raised `subprocess.TimeoutExpired`, `FileNotFoundError`, or
`subprocess.SubprocessError`. -/
inductive SubOutcome
  | completed (returncode : ℤ) (stdout : String)
  | timedOut
  | notFound
  | subErr
  deriving Repr, DecidableEq

/-- The `subprocess.run` call in `check_nvidia_smi` (lines 52–58). -/
def checkCall : SubprocessCall :=
  { args := ["nvidia-smi", "--version"], timeout := some 5 }

/-- Model of `check_nvidia_smi` (`gpu_utils.py` lines 45–61): runs
`nvidia-smi --version` with `timeout=5`; returns `returncode == 0`, and
`False` when the call raises (timeout, missing binary, subprocess error).
The second component records the subprocess call issued. -/
def check_nvidia_smi (o : SubOutcome) : Bool × List SubprocessCall :=
  match o with
  | .completed rc _ => (rc = 0, [checkCall])
  | _ => (false, [checkCall])

/-- The driver/CUDA version query call (`gpu_utils.py` lines 78–87). -/
def versionQueryCall : SubprocessCall :=
  { args := ["nvidia-smi", "--query-gpu=driver_version,cuda_version",
             "--format=csv,noheader"],
    timeout := some 5 }

/-- The GPU detail query call (`gpu_utils.py` lines 94–103). -/
def gpuQueryCall : SubprocessCall :=
  { args := ["nvidia-smi", "--query-gpu=index,name,memory.total",
             "--format=csv,noheader,nounits"],
    timeout := some 5 }

/-- Parsing of the driver/CUDA version line (`gpu_utils.py` lines
109–122): strip stdout, split into lines, take the first line, split on
commas and strip each part; with at least two parts, the driver version is
part 0 and the CUDA version part 1 (`None` when empty). -/
def parseVersionOutput (stdout : String) : Option String × Option String :=
  match pySplit '\n' (pyStrip stdout) with
  | [] => (none, none)
  | first :: _ =>
      let parts := (pySplit ',' (pyStrip first)).map pyStrip
      if parts.length ≥ 2 then
        (some (parts.getD 0 ""),
         if parts.getD 1 "" = "" then none else some (parts.getD 1 ""))
      else (none, none)

/-- Parsing of one line of the GPU detail query (`gpu_utils.py` lines
125–148): blank lines are skipped; a line splits on commas into stripped
parts; with at least three parts, part 0 is the integer index, part 1 the
name and part 2 the total memory in MiB, converted to bytes by
`* 1024 * 1024`; lines whose integers fail to parse are skipped.
The `GPUInfo.driver_version` field gets `driver_version or "Unknown"`. -/
def parseGpuLine (driver cuda : Option String) (line : String) :
    Option GPUInfo :=
  if pyStrip line = "" then none
  else
    let parts := (pySplit ',' line).map pyStrip
    if parts.length ≥ 3 then
      match pyToInt (parts.getD 0 ""), pyToInt (parts.getD 2 "") with
      | some idx, some mb =>
          some { name := parts.getD 1 ""
                 driver_version :=
                   match driver with
                   | some d => if d = "" then "Unknown" else d
                   | none => "Unknown"
                 cuda_version := cuda
                 total_memory := mb * 1024 * 1024
                 index := idx }
      | _, _ => none
    else none

/-- Model of `get_gpu_info_nvidia_smi` (`gpu_utils.py` lines 64–157): checks for
`nvidia-smi`, then runs the version query and the GPU detail query (each
with `timeout=5`), returning `(None, None, [])` when the check fails, a
query raises (timeout included) or exits non-zero; otherwise parses both
outputs.  Also returns the list of subprocess calls issued. -/
def get_gpu_info_nvidia_smi (oCheck oVer oGpu : SubOutcome) :
    (Option String × Option String × List GPUInfo) × List SubprocessCall :=
  let chk := check_nvidia_smi oCheck
  if ¬ chk.1 then ((none, none, []), chk.2)
  else
    let trace1 := chk.2 ++ [versionQueryCall]
    match oVer with
    | .completed rc out =>
        if rc ≠ 0 then ((none, none, []), trace1)
        else
          let trace2 := trace1 ++ [gpuQueryCall]
          match oGpu with
          | .completed rc2 out2 =>
              if rc2 ≠ 0 then ((none, none, []), trace2)
              else
                let dv := (parseVersionOutput out).1
                let cv := (parseVersionOutput out).2
                let gpus := (pySplit '\n' (pyStrip out2)).filterMap
                  (parseGpuLine dv cv)
                ((dv, cv, gpus), trace2)
          | _ => ((none, none, []), trace2)
    | _ => ((none, none, []), trace1)

/-- One successfully-queried device inside `get_gpu_info_pynvml`
(`gpu_utils.py` lines 176–215): the raw values pynvml reported for it.
`cuda_raw` is `nvmlSystemGetCudaDriverVersion()` (`none` when that inner
call raised). -/
structure PynvmlDeviceSample where
  name : String
  total_memory : ℤ
  driver_version : String
  cuda_raw : Option ℕ
  deriving Repr, DecidableEq

/-- The CUDA version string computed at `gpu_utils.py` line 203:
`f"{v // 1000}.{v % 1000 // 10}"` when the raw value is truthy. -/
def cudaVersionString (cuda_raw : Option ℕ) : Option String :=
  match cuda_raw with
  | some v =>
      if v ≠ 0 then some (toString (v / 1000) ++ "." ++ toString (v % 1000 / 10))
      else none
  | none => none

/-- Model of `get_gpu_info_pynvml` (`gpu_utils.py` lines 160–225): `None` when the
pynvml import is absent or initialization fails; otherwise one `GPUInfo`
per device whose per-device queries succeeded (failing devices are
skipped), with the loop index as the GPU index. -/
def get_gpu_info_pynvml (pynvmlOk : Bool)
    (init : Except Unit (List (Except Unit PynvmlDeviceSample))) :
    Option (List GPUInfo) :=
  if ¬ pynvmlOk then none
  else
    match init with
    | .error _ => none
    | .ok devs =>
        some (devs.enum.filterMap fun iv =>
          match iv.2 with
          | .ok s =>
              some { name := s.name
                     driver_version := s.driver_version
                     cuda_version := cudaVersionString s.cuda_raw
                     total_memory := s.total_memory
                     index := (iv.1 : ℤ) }
          | .error _ => none)

/-- Model of `get_gpu_info` (`gpu_utils.py` lines 228–246): tries pynvml first;
when pynvml is available and returns a non-empty GPU list, the driver and
CUDA versions of GPU 0 are reported with no subprocess call; otherwise
falls back to `get_gpu_info_nvidia_smi`. -/
def get_gpu_info (pynvmlOk : Bool)
    (init : Except Unit (List (Except Unit PynvmlDeviceSample)))
    (oCheck oVer oGpu : SubOutcome) :
    (Option String × Option String × List GPUInfo) × List SubprocessCall :=
  if pynvmlOk then
    match get_gpu_info_pynvml pynvmlOk init with
    | some (g :: gs) => ((some g.driver_version, g.cuda_version, g :: gs), [])
    | some [] => get_gpu_info_nvidia_smi oCheck oVer oGpu
    | none => get_gpu_info_nvidia_smi oCheck oVer oGpu
  else get_gpu_info_nvidia_smi oCheck oVer oGpu

/-- The raw values pynvml reported inside `get_gpu_metrics`
(`gpu_utils.py` lines 263–290): GPU utilization, temperature (`none` when
the inner temperature query raised), memory used/total in bytes, and
power draw in milliwatts (`none` when the inner power query raised). -/
structure PynvmlMetricsSample where
  util_gpu : ℚ
  temperature : Option ℚ
  memory_used : ℚ
  memory_total : ℚ
  power_mw : Option ℚ
  deriving Repr, DecidableEq

/-- The memory-usage percentage expression appearing verbatim at
`gpu_utils.py` line 283 and lines 342–344:
`(memory_used / memory_total) * 100 if memory_total > 0 else 0`. -/
def memPercent (used total : ℚ) : ℚ :=
  if total > 0 then used / total * 100 else 0

/-- The key list of every GPU metrics dict literal in `gpu_utils.py`
(lines 293–300 and 347–354). -/
def gpuMetricKeys : List String :=
  ["utilization", "temperature", "memory_used", "memory_total",
   "memory_percent", "power"]

/-- The dict literal returned by the pynvml path of `get_gpu_metrics`
(`gpu_utils.py` lines 293–300); power is converted from mW to W. -/
def pynvmlMetricsDict (s : PynvmlMetricsSample) : MetricsDict :=
  [("utilization", .num s.util_gpu),
   ("temperature", match s.temperature with
                   | some t => .num t
                   | none => .null),
   ("memory_used", .num s.memory_used),
   ("memory_total", .num s.memory_total),
   ("memory_percent", .num (memPercent s.memory_used s.memory_total)),
   ("power", match s.power_mw with
             | some p => .num (p / 1000)
             | none => .null)]

/-- Digit-string to natural number; `none` when empty or a non-digit
appears. -/
def digitsToNat (cs : List Char) : Option ℕ :=
  if cs.isEmpty then none
  else if cs.all Char.isDigit then
    some (cs.foldl (fun n c => n * 10 + (c.toNat - 48)) 0)
  else none

/-- The unsigned part of a decimal float literal: digits with at most
one decimal point (at least one digit overall). -/
def parseDecimalDigits (cs : List Char) : Option ℚ :=
  match splitOnChar '.' cs with
  | [intPart] =>
      (digitsToNat intPart).map fun n => (n : ℚ)
  | [intPart, fracPart] =>
      if intPart.all Char.isDigit ∧ fracPart.all Char.isDigit ∧
          ¬ (intPart.isEmpty ∧ fracPart.isEmpty) then
        some ((intPart.foldl (fun n c => n * 10 + (c.toNat - 48)) 0 : ℕ) +
          (fracPart.foldl (fun n c => n * 10 + (c.toNat - 48)) 0 : ℕ) /
            (10 : ℚ) ^ fracPart.length)
      else none
  | _ => none

/-- Model of Python `float(...)` applied to an nvidia-smi CSV field:
an optional sign, then digits with at most one decimal point (at least one
digit overall); anything else raises `ValueError`, i.e. parses to `none`.
(Exponent, infinity and NaN forms never occur in this output format.) -/
def parseDecimal (s : String) : Option ℚ :=
  match s.data with
  | '-' :: rest => (parseDecimalDigits rest).map fun q => -q
  | '+' :: rest => parseDecimalDigits rest
  | rest => parseDecimalDigits rest

/-- The metrics query call (`gpu_utils.py` lines 321–331), parameterized
by the GPU index interpolated into `--id=`. -/
def metricsQueryCall (index : ℤ) : SubprocessCall :=
  { args := ["nvidia-smi", "--id=" ++ toString index,
             "--query-gpu=utilization.gpu,temperature.gpu,memory.used,memory.total,power.draw",
             "--format=csv,noheader,nounits"],
    timeout := some 5 }

/-- Model of `get_gpu_metrics_nvidia_smi` (`gpu_utils.py` lines 307–359): checks
for `nvidia-smi`, then runs one metrics query with `timeout=5`. Returns
`None` when the check fails, the call raises (timeout included), the exit
code is non-zero, fewer than five CSV fields come back, or a field fails
to parse; otherwise the metrics dict, with memory converted from MiB to
bytes.  Also returns the subprocess calls issued. -/
def get_gpu_metrics_nvidia_smi (index : ℤ) (oCheck oRun : SubOutcome) :
    Option MetricsDict × List SubprocessCall :=
  let chk := check_nvidia_smi oCheck
  if ¬ chk.1 then (none, chk.2)
  else
    let trace := chk.2 ++ [metricsQueryCall index]
    match oRun with
    | .completed rc out =>
        if rc ≠ 0 then (none, trace)
        else
          let parts := (pySplit ',' (pyStrip out)).map pyStrip
          if parts.length ≥ 5 then
            match parseDecimal (parts.getD 0 ""), parseDecimal (parts.getD 1 ""),
                pyToInt (parts.getD 2 ""), pyToInt (parts.getD 3 ""),
                parseDecimal (parts.getD 4 "") with
            | some util, some temp, some mu, some mt, some pw =>
                let memory_used : ℚ := ((mu * 1024 * 1024 : ℤ) : ℚ)
                let memory_total : ℚ := ((mt * 1024 * 1024 : ℤ) : ℚ)
                (some [("utilization", .num util),
                       ("temperature", .num temp),
                       ("memory_used", .num memory_used),
                       ("memory_total", .num memory_total),
                       ("memory_percent", .num (memPercent memory_used memory_total)),
                       ("power", .num pw)], trace)
            | _, _, _, _, _ => (none, trace)
          else (none, trace)
    | _ => (none, trace)

/-- Model of `get_gpu_metrics` (`gpu_utils.py` lines 249–304): when pynvml is
absent, falls back to `get_gpu_metrics_nvidia_smi`; otherwise queries
pynvml and returns its dict (no subprocess call), falling back to
`get_gpu_metrics_nvidia_smi` when any uncaught pynvml call raises. -/
def get_gpu_metrics (pynvmlOk : Bool) (py : Except Unit PynvmlMetricsSample)
    (index : ℤ) (oCheck oRun : SubOutcome) :
    Option MetricsDict × List SubprocessCall :=
  if ¬ pynvmlOk then get_gpu_metrics_nvidia_smi index oCheck oRun
  else
    match py with
    | .ok s => (some (pynvmlMetricsDict s), [])
    | .error _ => get_gpu_metrics_nvidia_smi index oCheck oRun

end GpuUtils

namespace Probe

/-! ### psutil sample types shared by the collectors -/

/-- Model of `psutil.virtual_memory()` fields read by the code. -/
structure MemSample where
  total : ℤ
  available : ℤ
  used : ℤ
  percent : ℚ
  deriving Repr, DecidableEq

/-- Model of `psutil.swap_memory()` fields read by the code. -/
structure SwapSample where
  total : ℤ
  used : ℤ
  percent : ℚ
  deriving Repr, DecidableEq

/-- Model of `psutil.cpu_freq()` result fields (when it returns a value). -/
structure FreqSample where
  current : ℚ
  minF : ℚ
  maxF : ℚ
  deriving Repr, DecidableEq

/-- A `psutil.disk_partitions()` entry's fields read by the code. -/
structure Partition where
  device : String
  mountpoint : String
  fstype : String
  deriving Repr, DecidableEq

/-- A successful `psutil.disk_usage(mountpoint)` result. -/
structure DiskUsage where
  total : ℤ
  used : ℤ
  free : ℤ
  percent : ℚ
  deriving Repr, DecidableEq

/-- Outcome of `psutil.disk_usage(mountpoint)` for one partition: a
reading, a `PermissionError`, or another exception. -/
inductive UsageOutcome
  | ok (u : DiskUsage)
  | permissionDenied
  | otherFailure
  deriving Repr, DecidableEq

/-- A `psutil.net_if_stats()` value's fields read by the code. -/
structure IfStats where
  isup : Bool
  speed : ℤ
  deriving Repr, DecidableEq

/-- A `psutil.net_io_counters(pernic=True)` value's fields read. -/
structure IOCounters where
  bytes_sent : ℤ
  bytes_recv : ℤ
  deriving Repr, DecidableEq

/-- A `psutil.net_if_addrs()` address entry's fields read by the code
(`netmask`/`broadcast` are `None` or a string). -/
structure AddrSample where
  family : String
  address : String
  netmask : Option String
  broadcast : Option String
  deriving Repr, DecidableEq

end Probe

namespace WebServer

open Probe GpuUtils

/-! ### Live metric collectors (`web_server.py` lines 91–252) -/

/-- Model of `psutil.cpu_percent` readings for `get_cpu_data`. -/
structure CpuSample where
  per_cpu : List ℚ
  overall : ℚ
  deriving Repr, DecidableEq

/-- The dict returned by `get_cpu_data`. -/
structure CpuData where
  per_core : List ℚ
  overall : ℚ
  frequency_mhz : Option ℚ
  cores : ℕ
  deriving Repr, DecidableEq

/-- The except-branch dict of `get_cpu_data` (`web_server.py` line 113). -/
def cpuDataDefault : CpuData :=
  { per_core := [], overall := 0, frequency_mhz := none, cores := 0 }

/-- Model of `get_cpu_data` (`web_server.py` lines 91–113): on success returns the
per-core and overall percentages with `cores = len(per_cpu)`; the
frequency is `cpu_freq().current` under an inner `try` whose failure (or a
`None`/absent frequency) leaves it `None`; any other failure yields the
zeroed default dict. -/
def get_cpu_data (cpu : Except Unit CpuSample)
    (freq : Except Unit (Option FreqSample)) : CpuData :=
  match cpu with
  | .error _ => cpuDataDefault
  | .ok s =>
      { per_core := s.per_cpu
        overall := s.overall
        frequency_mhz :=
          match freq with
          | .ok (some f) => some f.current
          | _ => none
        cores := s.per_cpu.length }

/-- The dict returned by `get_memory_data`. -/
structure MemoryData where
  total : ℤ
  available : ℤ
  used : ℤ
  percent : ℚ
  swap_total : ℤ
  swap_used : ℤ
  swap_percent : ℚ
  deriving Repr, DecidableEq

/-- The except-branch dict of `get_memory_data` (lines 133–141). -/
def memoryDataDefault : MemoryData :=
  { total := 0, available := 0, used := 0, percent := 0,
    swap_total := 0, swap_used := 0, swap_percent := 0 }

/-- Model of `get_memory_data` (`web_server.py` lines 116–141): copies the
`virtual_memory()` and `swap_memory()` fields; on failure returns the
zeroed default dict. -/
def get_memory_data (probe : Except Unit (MemSample × SwapSample)) :
    MemoryData :=
  match probe with
  | .ok (m, s) =>
      { total := m.total, available := m.available, used := m.used,
        percent := m.percent, swap_total := s.total, swap_used := s.used,
        swap_percent := s.percent }
  | .error _ => memoryDataDefault

/-- A disk entry dict of `get_disk_data` (lines 152–162). -/
structure DiskEntry where
  device : String
  mountpoint : String
  fstype : String
  total : ℤ
  used : ℤ
  free : ℤ
  percent : ℚ
  deriving Repr, DecidableEq

/-- The per-partition body of `get_disk_data`'s loop: a dict when the
usage query succeeded, nothing when it raised `PermissionError` or any
other exception (`continue`). -/
def diskRow (p : Partition) (r : UsageOutcome) : Option DiskEntry :=
  match r with
  | .ok u =>
      some { device := p.device, mountpoint := p.mountpoint,
             fstype := p.fstype, total := u.total, used := u.used,
             free := u.free, percent := u.percent }
  | .permissionDenied => none
  | .otherFailure => none

/-- Model of `get_disk_data` (`web_server.py` lines 144–170): iterates over
`partitions[:10]`, appending an entry per readable partition and skipping
unreadable ones; an empty list when `disk_partitions()` itself raises. -/
def get_disk_data (parts : Except Unit (List (Partition × UsageOutcome))) :
    List DiskEntry :=
  match parts with
  | .error _ => []
  | .ok ps => (ps.take 10).filterMap fun pr => diskRow pr.1 pr.2

/-- A network entry dict of `get_network_data` (lines 190–198). -/
structure NetEntry where
  name : String
  is_up : Bool
  speed_mbps : Option ℤ
  bytes_sent : ℤ
  bytes_recv : ℤ
  deriving Repr, DecidableEq

/-- The per-interface body of `get_network_data`'s loop: skips the
interface named `"lo"`; otherwise reads the I/O counters via
`net_io.get(name)` (0/0 when absent) and reports the speed only when
positive. -/
def netRow (nio : List (String × IOCounters)) (pr : String × IfStats) :
    Option NetEntry :=
  if pr.1 = "lo" then none
  else
    some { name := pr.1
           is_up := pr.2.isup
           speed_mbps := if pr.2.speed > 0 then some pr.2.speed else none
           bytes_sent :=
             match nio.lookup pr.1 with
             | some c => c.bytes_sent
             | none => 0
           bytes_recv :=
             match nio.lookup pr.1 with
             | some c => c.bytes_recv
             | none => 0 }

/-- Model of `get_network_data` (`web_server.py` lines 173–202): iterates over
`list(net_if_stats.items())[:10]`, skipping `"lo"`; an empty list when
either psutil query raises. -/
def get_network_data
    (inp : Except Unit (List (String × IOCounters) × List (String × IfStats))) :
    List NetEntry :=
  match inp with
  | .error _ => []
  | .ok (nio, stats) => (stats.take 10).filterMap (netRow nio)

/-- A GPU entry dict of `get_gpu_data` (lines 213–237). -/
structure GpuEntry where
  index : ℤ
  name : String
  utilization : JVal
  temperature : JVal
  memory_used : JVal
  memory_total : JVal
  memory_percent : JVal
  power : JVal
  deriving Repr, DecidableEq

/-- The per-device body of `get_gpu_data`'s loop: with a metrics dict the
entry reads it via `dict.get` with the source's defaults; with no metrics
the entry has `None` metric fields and the device's total memory. -/
def gpuRow (pr : GPUInfo × Option MetricsDict) : GpuEntry :=
  match pr.2 with
  | some m =>
      { index := pr.1.index
        name := pr.1.name
        utilization := dictGet m "utilization" (.num 0)
        temperature := dictGet m "temperature" .null
        memory_used := dictGet m "memory_used" (.num 0)
        memory_total := dictGet m "memory_total" (.num 0)
        memory_percent := dictGet m "memory_percent" (.num 0)
        power := dictGet m "power" .null }
  | none =>
      { index := pr.1.index
        name := pr.1.name
        utilization := .null
        temperature := .null
        memory_used := .null
        memory_total := .num (pr.1.total_memory : ℚ)
        memory_percent := .null
        power := .null }

/-- Model of `get_gpu_data` (`web_server.py` lines 205–241): one entry per device
reported by `get_gpu_info`, paired with that device's `get_gpu_metrics`
result; an empty list when the probe raises. -/
def get_gpu_data
    (inp : Except Unit (List (GPUInfo × Option MetricsDict))) :
    List GpuEntry :=
  match inp with
  | .error _ => []
  | .ok gs => gs.map gpuRow

/-- The dict returned by `get_all_metrics`. -/
structure AllMetrics where
  cpu : CpuData
  memory : MemoryData
  disks : List DiskEntry
  network : List NetEntry
  gpu : List GpuEntry
  deriving Repr, DecidableEq

/-- Model of `get_all_metrics` (`web_server.py` lines 244–252): assembles the five
domain collectors into one dict; each domain depends only on its own
probe's outcome. -/
def get_all_metrics (pc : Except Unit CpuSample)
    (pf : Except Unit (Option FreqSample))
    (pm : Except Unit (MemSample × SwapSample))
    (pd : Except Unit (List (Partition × UsageOutcome)))
    (pn : Except Unit (List (String × IOCounters) × List (String × IfStats)))
    (pg : Except Unit (List (GPUInfo × Option MetricsDict))) : AllMetrics :=
  { cpu := get_cpu_data pc pf
    memory := get_memory_data pm
    disks := get_disk_data pd
    network := get_network_data pn
    gpu := get_gpu_data pg }

end WebServer

namespace Inventory

open Probe GpuUtils

/-! ### One-shot inventory collectors (`inventory.py` lines 33–289) -/

/-- The values read by `get_cpu_info`'s main body: `platform.processor()`
(possibly the empty string), `psutil.cpu_count(logical=False)` and
`psutil.cpu_count(logical=True)` (each possibly `None`), and
`platform.machine()`. -/
structure CpuInfoSample where
  processor : String
  physical_cores : Option ℕ
  logical_threads : Option ℕ
  machine : String
  deriving Repr, DecidableEq

/-- The dict returned by `get_cpu_info`; the three frequency keys are
present only when `psutil.cpu_freq()` returned a truthy value. -/
structure CpuInfo where
  model : String
  physical_cores : ℕ
  logical_threads : ℕ
  architecture : String
  base_frequency_mhz : Option ℚ
  min_frequency_mhz : Option ℚ
  max_frequency_mhz : Option ℚ
  deriving Repr, DecidableEq

/-- The except-branch dict of `get_cpu_info` (`inventory.py` lines
75–80); it carries no frequency keys. -/
def cpuInfoDefault : CpuInfo :=
  { model := "Unknown", physical_cores := 0, logical_threads := 0,
    architecture := "Unknown", base_frequency_mhz := none,
    min_frequency_mhz := none, max_frequency_mhz := none }

/-- Model of `get_cpu_info` (`inventory.py` lines 33–80).  `cpuinfoModel` stands
for the `/proc/cpuinfo` scan of lines 60–69: the stripped text after the
colon of the first `model name` line, `.ok none` when the file could be
read but held no such line, `.error ()` when opening or reading raised
(the inner `try` swallows that).  The scanned model replaces
`platform.processor()` only on Linux and only when non-empty.  Any failure
of the main body yields the `"Unknown"` default dict. -/
def get_cpu_info (main : Except Unit CpuInfoSample)
    (freq : Except Unit (Option FreqSample)) (isLinux : Bool)
    (cpuinfoModel : Except Unit (Option String)) : CpuInfo :=
  match main with
  | .error _ => cpuInfoDefault
  | .ok s =>
      let model0 := if s.processor = "" then "Unknown" else s.processor
      let model :=
        if isLinux then
          match cpuinfoModel with
          | .ok (some m) => if m = "" then model0 else m
          | _ => model0
        else model0
      { model := model
        physical_cores := s.physical_cores.getD 0
        logical_threads := s.logical_threads.getD 0
        architecture := s.machine
        base_frequency_mhz :=
          match freq with
          | .ok (some f) => some f.current
          | _ => none
        min_frequency_mhz :=
          match freq with
          | .ok (some f) => some f.minF
          | _ => none
        max_frequency_mhz :=
          match freq with
          | .ok (some f) => some f.maxF
          | _ => none }

/-- The dict returned by `get_memory_info`. -/
structure MemoryInfo where
  total_bytes : ℤ
  available_bytes : ℤ
  used_bytes : ℤ
  usage_percent : ℚ
  swap_total_bytes : ℤ
  swap_used_bytes : ℤ
  swap_percent : ℚ
  deriving Repr, DecidableEq

/-- The except-branch dict of `get_memory_info` (lines 106–114). -/
def memoryInfoDefault : MemoryInfo :=
  { total_bytes := 0, available_bytes := 0, used_bytes := 0,
    usage_percent := 0, swap_total_bytes := 0, swap_used_bytes := 0,
    swap_percent := 0 }

/-- Model of `get_memory_info` (`inventory.py` lines 83–114): copies the
`virtual_memory()` and `swap_memory()` fields — in particular
`usage_percent` is the probe's `percent` field verbatim; on failure
returns the zeroed default dict. -/
def get_memory_info (probe : Except Unit (MemSample × SwapSample)) :
    MemoryInfo :=
  match probe with
  | .ok (m, s) =>
      { total_bytes := m.total, available_bytes := m.available,
        used_bytes := m.used, usage_percent := m.percent,
        swap_total_bytes := s.total, swap_used_bytes := s.used,
        swap_percent := s.percent }
  | .error _ => memoryInfoDefault

/-- A disk entry dict of `get_disk_info` (lines 130–138). -/
structure DiskInfoEntry where
  device : String
  mountpoint : String
  fstype : String
  total_bytes : ℤ
  used_bytes : ℤ
  free_bytes : ℤ
  usage_percent : ℚ
  deriving Repr, DecidableEq

/-- The per-partition body of `get_disk_info`'s loop: a dict when the
usage query succeeded, nothing on `PermissionError` or any other
exception (`continue`). -/
def diskInfoRow (p : Partition) (r : UsageOutcome) : Option DiskInfoEntry :=
  match r with
  | .ok u =>
      some { device := p.device, mountpoint := p.mountpoint,
             fstype := p.fstype, total_bytes := u.total,
             used_bytes := u.used, free_bytes := u.free,
             usage_percent := u.percent }
  | .permissionDenied => none
  | .otherFailure => none

/-- Model of `get_disk_info` (`inventory.py` lines 117–152): iterates over all
partitions (no truncation), appending an entry per readable partition and
skipping unreadable ones; an empty list when `disk_partitions()` raises. -/
def get_disk_info (parts : Except Unit (List (Partition × UsageOutcome))) :
    List DiskInfoEntry :=
  match parts with
  | .error _ => []
  | .ok ps => ps.filterMap fun pr => diskInfoRow pr.1 pr.2

/-- An address dict inside a network interface entry (lines 181–189);
`netmask`/`broadcast` keys are present only for truthy values. -/
structure AddrInfo where
  family : String
  address : String
  netmask : Option String
  broadcast : Option String
  deriving Repr, DecidableEq

/-- The address dict built at lines 181–189: the optional keys are added
only when the value is truthy (not `None`, not empty). -/
def addrInfoRow (a : AddrSample) : AddrInfo :=
  { family := a.family
    address := a.address
    netmask :=
      match a.netmask with
      | some s => if s = "" then none else some s
      | none => none
    broadcast :=
      match a.broadcast with
      | some s => if s = "" then none else some s
      | none => none }

/-- A network interface entry dict of `get_network_info` (lines 172–197). -/
structure NetIfaceInfo where
  name : String
  addresses : List AddrInfo
  is_up : Bool
  speed_mbps : Option ℤ
  deriving Repr, DecidableEq

/-- The per-interface body of `get_network_info`'s loop: the interface
named `"lo"` is skipped; `is_up`/`speed_mbps` keep their initial
`False`/`None` when the interface is absent from `net_if_stats`. -/
def netIfaceRow (stats : List (String × IfStats))
    (pr : String × List AddrSample) : Option NetIfaceInfo :=
  if pr.1 = "lo" then none
  else
    some { name := pr.1
           addresses := pr.2.map addrInfoRow
           is_up :=
             match stats.lookup pr.1 with
             | some st => st.isup
             | none => false
           speed_mbps :=
             match stats.lookup pr.1 with
             | some st => some st.speed
             | none => none }

/-- Model of `get_network_info` (`inventory.py` lines 155–202): iterates over all
`net_if_addrs()` items (no truncation), skipping `"lo"`; an empty list
when a psutil query raises. -/
def get_network_info
    (inp : Except Unit
      (List (String × List AddrSample) × List (String × IfStats))) :
    List NetIfaceInfo :=
  match inp with
  | .error _ => []
  | .ok (addrs, stats) => addrs.filterMap (netIfaceRow stats)

/-- A GPU entry dict of `get_gpu_info_dict` (lines 217–223). -/
structure GpuInvEntry where
  index : ℤ
  name : String
  driver_version : String
  cuda_version : Option String
  total_memory_bytes : ℤ
  deriving Repr, DecidableEq

/-- The dict returned by `get_gpu_info_dict`. -/
structure GpuInventory where
  driver_version : Option String
  cuda_version : Option String
  gpus : List GpuInvEntry
  gpu_count : ℕ
  deriving Repr, DecidableEq

/-- The except-branch dict of `get_gpu_info_dict` (lines 235–240). -/
def gpuInventoryDefault : GpuInventory :=
  { driver_version := none, cuda_version := none, gpus := [], gpu_count := 0 }

/-- Model of `get_gpu_info_dict` (`inventory.py` lines 205–240): converts the
`get_gpu_info()` triple into a dict with `gpu_count = len(gpus)`; the
empty default dict on failure. -/
def get_gpu_info_dict
    (gi : Except Unit (Option String × Option String × List GPUInfo)) :
    GpuInventory :=
  match gi with
  | .error _ => gpuInventoryDefault
  | .ok (dv, cv, gs) =>
      { driver_version := dv
        cuda_version := cv
        gpus := gs.map fun g =>
          { index := g.index, name := g.name,
            driver_version := g.driver_version,
            cuda_version := g.cuda_version,
            total_memory_bytes := g.total_memory }
        gpu_count := gs.length }

/-- The values read by `get_system_info` from the `platform` module. -/
structure SystemSample where
  node : String
  system : String
  version : String
  release : String
  platformStr : String
  deriving Repr, DecidableEq

/-- The dict returned by `get_system_info`. -/
structure SystemInfo where
  hostname : String
  os : String
  os_version : String
  os_release : String
  platformStr : String
  deriving Repr, DecidableEq

/-- The except-branch dict of `get_system_info` (lines 260–266). -/
def systemInfoDefault : SystemInfo :=
  { hostname := "Unknown", os := "Unknown", os_version := "Unknown",
    os_release := "Unknown", platformStr := "Unknown" }

/-- Model of `get_system_info` (`inventory.py` lines 243–266). -/
def get_system_info (probe : Except Unit SystemSample) : SystemInfo :=
  match probe with
  | .ok s =>
      { hostname := s.node, os := s.system, os_version := s.version,
        os_release := s.release, platformStr := s.platformStr }
  | .error _ => systemInfoDefault

/-- The dict returned by `collect_inventory`. -/
structure InventoryDict where
  timestamp : String
  system : SystemInfo
  cpu : CpuInfo
  memory : MemoryInfo
  disks : List DiskInfoEntry
  network : List NetIfaceInfo
  gpu : GpuInventory
  deriving Repr, DecidableEq

/-- Model of `collect_inventory` (`inventory.py` lines 269–289): assembles the
timestamp and the six domain collectors into one dict; each domain
depends only on its own probe outcomes, and the function is total — no
probe failure prevents the dict from being built. -/
def collect_inventory (timestamp : String)
    (sys : Except Unit SystemSample)
    (cmain : Except Unit CpuInfoSample)
    (cfreq : Except Unit (Option FreqSample)) (isLinux : Bool)
    (cpuinfoModel : Except Unit (Option String))
    (pm : Except Unit (MemSample × SwapSample))
    (pd : Except Unit (List (Partition × UsageOutcome)))
    (pn : Except Unit
      (List (String × List AddrSample) × List (String × IfStats)))
    (gi : Except Unit (Option String × Option String × List GPUInfo)) :
    InventoryDict :=
  { timestamp := timestamp
    system := get_system_info sys
    cpu := get_cpu_info cmain cfreq isLinux cpuinfoModel
    memory := get_memory_info pm
    disks := get_disk_info pd
    network := get_network_info pn
    gpu := get_gpu_info_dict gi }

end Inventory

namespace Monitor

open Probe

/-! ### Terminal dashboard tables (`monitor.py` lines 154–230)

A `rich` table row is modelled by the data rendered into it; string
formatting (`format_bytes` etc.) is presentation and is not re-modelled —
which partitions/interfaces produce a row, and in which order, is fully
captured. -/

/-- A row of `MonitorDashboard.get_disk_table`: an entry per readable
partition, or the `("Error", ...)` marker row added when
`disk_partitions()` itself raises (lines 183–185). -/
inductive DiskRow
  | entry (device mountpoint : String) (used total : ℤ) (percent : ℚ)
  | errorRow
  deriving Repr, DecidableEq

/-- Model of `MonitorDashboard.get_disk_table` (`monitor.py` lines 154–187):
iterates over `partitions[:5]`, one row per readable partition, skipping
ones whose usage query raises; a single error row when the partition
query itself raises. -/
def get_disk_table (parts : Except Unit (List (Partition × UsageOutcome))) :
    List DiskRow :=
  match parts with
  | .error _ => [.errorRow]
  | .ok ps =>
      (ps.take 5).filterMap fun pr =>
        match pr.2 with
        | .ok u => some (.entry pr.1.device pr.1.mountpoint u.used u.total u.percent)
        | .permissionDenied => none
        | .otherFailure => none

/-- A row of `MonitorDashboard.get_network_table`: an interface row, or
the `("Error", ...)` marker row (lines 226–228). -/
inductive NetRow
  | entry (name : String) (isup : Bool) (sent recv : ℤ) (speed : Option ℤ)
  | errorRow
  deriving Repr, DecidableEq

/-- Model of `MonitorDashboard.get_network_table` (`monitor.py` lines 189–230):
iterates over `list(net_if_stats.items())[:5]`, skipping `"lo"`; I/O
counters default to 0 when the interface is absent from
`net_io_counters`; speed is shown only when positive; a single error row
when a psutil query raises. -/
def get_network_table
    (inp : Except Unit (List (String × IOCounters) × List (String × IfStats))) :
    List NetRow :=
  match inp with
  | .error _ => [.errorRow]
  | .ok (nio, stats) =>
      (stats.take 5).filterMap fun pr =>
        if pr.1 = "lo" then none
        else
          some (.entry pr.1 pr.2.isup
            (match nio.lookup pr.1 with
             | some c => c.bytes_sent
             | none => 0)
            (match nio.lookup pr.1 with
             | some c => c.bytes_recv
             | none => 0)
            (if pr.2.speed > 0 then some pr.2.speed else none))

end Monitor

namespace WebServer

/-! ## Auxiliary lemmas about the broadcast send loop and the removal fold -/

theorem broadcastLoop_attempted {α : Type} (sendOk : α → Bool) (l : List α) :
    (broadcastLoop sendOk l).1 = l := by
  induction l with
  | nil => rfl
  | cons c rest ih =>
      simp only [broadcastLoop]
      by_cases h : sendOk c = true
      · simp [h, ih]
      · simp [h, ih]

theorem broadcastLoop_delivered {α : Type} (sendOk : α → Bool) (l : List α) :
    (broadcastLoop sendOk l).2.1 = l.filter sendOk := by
  induction l with
  | nil => rfl
  | cons c rest ih =>
      simp only [broadcastLoop, List.filter_cons]
      by_cases h : sendOk c = true
      · simp [h, ih]
      · simp [h, ih]

theorem broadcastLoop_failed {α : Type} (sendOk : α → Bool) (l : List α) :
    (broadcastLoop sendOk l).2.2 = l.filter (fun c => ¬ sendOk c) := by
  induction l with
  | nil => rfl
  | cons c rest ih =>
      simp only [broadcastLoop, List.filter_cons]
      by_cases h : sendOk c = true
      · simp [h, ih]
      · simp [h, ih]

/-- Removing a batch of connections none of which equals `x` leaves a
leading `x` in place. -/
theorem foldl_disconnect_cons_of_ne {α : Type} [DecidableEq α] (x : α) :
    ∀ (ys xs : List α), (∀ y ∈ ys, y ≠ x) →
      ys.foldl (fun acc c => disconnect c acc) (x :: xs) =
        x :: ys.foldl (fun acc c => disconnect c acc) xs := by
  intro ys
  induction ys with
  | nil => intro xs _; rfl
  | cons y ys ih =>
      intro xs hy
      have hyx : y ≠ x := hy y (List.mem_cons_self y ys)
      have hstep : disconnect y (x :: xs) = x :: disconnect y xs := by
        unfold disconnect
        by_cases hmem : y ∈ xs
        · have : y ∈ x :: xs := List.mem_cons_of_mem x hmem
          simp only [hmem, if_true, this, if_true]
          exact List.erase_cons_tail (by simpa using hyx.symm)
        · have : y ∉ x :: xs := by
            intro hc
            rcases List.mem_cons.mp hc with h | h
            · exact hyx h
            · exact hmem h
          simp [hmem, this]
      simp only [List.foldl_cons, hstep]
      exact ih (disconnect y xs) (fun z hz => hy z (List.mem_cons_of_mem y hz))

/-- Removing exactly the failing occurrences (in iteration order) from the
original connection list leaves exactly the succeeding occurrences. -/
theorem foldl_disconnect_filter {α : Type} [DecidableEq α] (p : α → Bool)
    (l : List α) :
    (l.filter (fun c => ¬ p c)).foldl (fun acc c => disconnect c acc) l =
      l.filter p := by
  induction l with
  | nil => rfl
  | cons x xs ih =>
      by_cases h : p x = true
      · have hfail : (List.filter (fun c => ¬ p c) (x :: xs)) =
            List.filter (fun c => ¬ p c) xs := by
          simp [List.filter_cons, h]
        rw [hfail]
        have hne : ∀ y ∈ List.filter (fun c => ¬ p c) xs, y ≠ x := by
          intro y hy hyx
          have := List.of_mem_filter hy
          subst hyx
          simp [h] at this
        rw [foldl_disconnect_cons_of_ne x _ xs hne, ih]
        simp [List.filter_cons, h]
      · have hfail : (List.filter (fun c => ¬ p c) (x :: xs)) =
            x :: List.filter (fun c => ¬ p c) xs := by
          simp [List.filter_cons, h]
        rw [hfail]
        have hx : x ∈ x :: xs := List.mem_cons_self x xs
        have hstep : disconnect x (x :: xs) = xs := by
          unfold disconnect
          simp [hx, List.erase_cons_head]
        simp only [List.foldl_cons, hstep, ih]
        simp [List.filter_cons, h]

/-- C1.  For every registered connection list and every send-success
pattern, `ConnectionManager.broadcast` attempts a send to every
connection registered at the start of the call; a send failure for one
connection does not prevent delivery to any other (exactly the
connections whose send succeeds receive the data, whatever the other
sends do); and when the call returns, the registered set holds exactly
the connections whose send succeeded — every failing connection has been
removed and every succeeding one remains. -/
theorem broadcast_attempts_all_isolates_failures_and_prunes
    {α : Type} [DecidableEq α] (sendOk : α → Bool) (conns : List α) :
    (broadcast sendOk conns).attempted = conns ∧
    (broadcast sendOk conns).delivered = conns.filter sendOk ∧
    (broadcast sendOk conns).failed = conns.filter (fun c => ¬ sendOk c) ∧
    (broadcast sendOk conns).final = conns.filter sendOk := by
  refine ⟨broadcastLoop_attempted sendOk conns,
          broadcastLoop_delivered sendOk conns,
          broadcastLoop_failed sendOk conns, ?_⟩
  show (broadcastLoop sendOk conns).2.2.foldl
      (fun acc c => disconnect c acc) conns = conns.filter sendOk
  rw [broadcastLoop_failed]
  exact foldl_disconnect_filter sendOk conns

/-- C9.  With distinct registered connections (each physical connection
is distinct), calling `ConnectionManager.disconnect` a second time with
the same handle after it is already removed is a no-op — the registered
set is exactly what the first call left — and no other connection's
registration is affected by either call. -/
theorem disconnect_idempotent_and_preserves_others
    {α : Type} [DecidableEq α] (ws : α) (conns : List α)
    (h : conns.Nodup) :
    disconnect ws (disconnect ws conns) = disconnect ws conns ∧
    (∀ o : α, o ≠ ws → (o ∈ disconnect ws conns ↔ o ∈ conns)) ∧
    (∀ o : α, o ≠ ws →
      (o ∈ disconnect ws (disconnect ws conns) ↔ o ∈ conns)) := by
  have hmem : ∀ (l : List α), l.Nodup → ws ∉ disconnect ws l := by
    intro l hl hmem
    unfold disconnect at hmem
    by_cases hin : ws ∈ l
    · rw [if_pos hin] at hmem
      exact (List.Nodup.mem_erase_iff hl).mp hmem |>.1 rfl
    · rw [if_neg hin] at hmem
      exact hin hmem
  have hsecond : disconnect ws (disconnect ws conns) = disconnect ws conns := by
    unfold disconnect
    rw [if_neg]
    exact hmem conns h
  have hothers : ∀ o : α, o ≠ ws → (o ∈ disconnect ws conns ↔ o ∈ conns) := by
    intro o ho
    unfold disconnect
    by_cases hin : ws ∈ conns
    · rw [if_pos hin]
      exact List.mem_erase_of_ne ho
    · rw [if_neg hin]
  exact ⟨hsecond, hothers, fun o ho => by rw [hsecond]; exact hothers o ho⟩

/-- Witness for C9: three distinct connections, removing connection 2
twice. -/
theorem disconnect_idempotent_and_preserves_others_witness :
    disconnect 2 (disconnect 2 [1, 2, 3]) = disconnect 2 [1, 2, 3] ∧
    (∀ o : ℕ, o ≠ 2 → (o ∈ disconnect 2 [1, 2, 3] ↔ o ∈ [1, 2, 3])) ∧
    (∀ o : ℕ, o ≠ 2 →
      (o ∈ disconnect 2 (disconnect 2 [1, 2, 3]) ↔ o ∈ [1, 2, 3])) :=
  disconnect_idempotent_and_preserves_others 2 [1, 2, 3] (by decide)

end WebServer

/-- C2.  For every combination of probe outcomes, both snapshot builders
— `collect_inventory` (one-shot) and `get_all_metrics` (live) — return a
complete record (totality of the Lean functions; no probe failure aborts
construction), every domain field is determined solely by its own probe's
outcome, and a failing probe leaves its domain at the documented
zero/empty default rather than absent or partially populated. -/
theorem snapshot_builders_total_and_default_failing_domains
    (timestamp : String) (sys : Except Unit Inventory.SystemSample)
    (cmain : Except Unit Inventory.CpuInfoSample)
    (cfreq : Except Unit (Option Probe.FreqSample)) (isLinux : Bool)
    (cpuinfoModel : Except Unit (Option String))
    (pm : Except Unit (Probe.MemSample × Probe.SwapSample))
    (pd : Except Unit (List (Probe.Partition × Probe.UsageOutcome)))
    (pn : Except Unit
      (List (String × List Probe.AddrSample) × List (String × Probe.IfStats)))
    (gi : Except Unit
      (Option String × Option String × List GpuUtils.GPUInfo))
    (wc : Except Unit WebServer.CpuSample)
    (wf : Except Unit (Option Probe.FreqSample))
    (wm : Except Unit (Probe.MemSample × Probe.SwapSample))
    (wd : Except Unit (List (Probe.Partition × Probe.UsageOutcome)))
    (wn : Except Unit
      (List (String × Probe.IOCounters) × List (String × Probe.IfStats)))
    (wg : Except Unit
      (List (GpuUtils.GPUInfo × Option GpuUtils.MetricsDict))) :
    (Inventory.collect_inventory timestamp sys cmain cfreq isLinux
        cpuinfoModel pm pd pn gi).system = Inventory.get_system_info sys ∧
    (Inventory.collect_inventory timestamp sys cmain cfreq isLinux
        cpuinfoModel pm pd pn gi).cpu =
      Inventory.get_cpu_info cmain cfreq isLinux cpuinfoModel ∧
    (Inventory.collect_inventory timestamp sys cmain cfreq isLinux
        cpuinfoModel pm pd pn gi).memory = Inventory.get_memory_info pm ∧
    (Inventory.collect_inventory timestamp sys cmain cfreq isLinux
        cpuinfoModel pm pd pn gi).disks = Inventory.get_disk_info pd ∧
    (Inventory.collect_inventory timestamp sys cmain cfreq isLinux
        cpuinfoModel pm pd pn gi).network = Inventory.get_network_info pn ∧
    (Inventory.collect_inventory timestamp sys cmain cfreq isLinux
        cpuinfoModel pm pd pn gi).gpu = Inventory.get_gpu_info_dict gi ∧
    (WebServer.get_all_metrics wc wf wm wd wn wg).cpu =
      WebServer.get_cpu_data wc wf ∧
    (WebServer.get_all_metrics wc wf wm wd wn wg).memory =
      WebServer.get_memory_data wm ∧
    (WebServer.get_all_metrics wc wf wm wd wn wg).disks =
      WebServer.get_disk_data wd ∧
    (WebServer.get_all_metrics wc wf wm wd wn wg).network =
      WebServer.get_network_data wn ∧
    (WebServer.get_all_metrics wc wf wm wd wn wg).gpu =
      WebServer.get_gpu_data wg ∧
    (cmain = .error () →
      (Inventory.collect_inventory timestamp sys cmain cfreq isLinux
        cpuinfoModel pm pd pn gi).cpu = Inventory.cpuInfoDefault) ∧
    (pm = .error () →
      (Inventory.collect_inventory timestamp sys cmain cfreq isLinux
        cpuinfoModel pm pd pn gi).memory = Inventory.memoryInfoDefault) ∧
    (pd = .error () →
      (Inventory.collect_inventory timestamp sys cmain cfreq isLinux
        cpuinfoModel pm pd pn gi).disks = []) ∧
    (pn = .error () →
      (Inventory.collect_inventory timestamp sys cmain cfreq isLinux
        cpuinfoModel pm pd pn gi).network = []) ∧
    (gi = .error () →
      (Inventory.collect_inventory timestamp sys cmain cfreq isLinux
        cpuinfoModel pm pd pn gi).gpu = Inventory.gpuInventoryDefault) ∧
    (wc = .error () →
      (WebServer.get_all_metrics wc wf wm wd wn wg).cpu =
        WebServer.cpuDataDefault) ∧
    (wm = .error () →
      (WebServer.get_all_metrics wc wf wm wd wn wg).memory =
        WebServer.memoryDataDefault) ∧
    (wd = .error () →
      (WebServer.get_all_metrics wc wf wm wd wn wg).disks = []) ∧
    (wn = .error () →
      (WebServer.get_all_metrics wc wf wm wd wn wg).network = []) ∧
    (wg = .error () →
      (WebServer.get_all_metrics wc wf wm wd wn wg).gpu = []) := by
  refine ⟨rfl, rfl, rfl, rfl, rfl, rfl, rfl, rfl, rfl, rfl, rfl,
    ?_, ?_, ?_, ?_, ?_, ?_, ?_, ?_, ?_, ?_⟩
  all_goals intro h; subst h; rfl

/-- Witness for C2: with every probe raising, both builders produce the
full record of documented defaults. -/
theorem snapshot_builders_total_and_default_failing_domains_witness :
    (Inventory.collect_inventory "t" (.error ()) (.error ()) (.error ())
        true (.error ()) (.error ()) (.error ()) (.error ())
        (.error ())).cpu = Inventory.cpuInfoDefault ∧
    (Inventory.collect_inventory "t" (.error ()) (.error ()) (.error ())
        true (.error ()) (.error ()) (.error ()) (.error ())
        (.error ())).memory = Inventory.memoryInfoDefault ∧
    (Inventory.collect_inventory "t" (.error ()) (.error ()) (.error ())
        true (.error ()) (.error ()) (.error ()) (.error ())
        (.error ())).disks = [] ∧
    (Inventory.collect_inventory "t" (.error ()) (.error ()) (.error ())
        true (.error ()) (.error ()) (.error ()) (.error ())
        (.error ())).network = [] ∧
    (Inventory.collect_inventory "t" (.error ()) (.error ()) (.error ())
        true (.error ()) (.error ()) (.error ()) (.error ())
        (.error ())).gpu = Inventory.gpuInventoryDefault ∧
    (WebServer.get_all_metrics (.error ()) (.error ()) (.error ())
        (.error ()) (.error ()) (.error ())).cpu =
      WebServer.cpuDataDefault ∧
    (WebServer.get_all_metrics (.error ()) (.error ()) (.error ())
        (.error ()) (.error ()) (.error ())).memory =
      WebServer.memoryDataDefault ∧
    (WebServer.get_all_metrics (.error ()) (.error ()) (.error ())
        (.error ()) (.error ()) (.error ())).disks = [] ∧
    (WebServer.get_all_metrics (.error ()) (.error ()) (.error ())
        (.error ()) (.error ()) (.error ())).network = [] ∧
    (WebServer.get_all_metrics (.error ()) (.error ()) (.error ())
        (.error ()) (.error ()) (.error ())).gpu = [] := by
  obtain ⟨-, -, -, -, -, -, -, -, -, -, -,
      h1, h2, h3, h4, h5, g1, g2, g3, g4, g5⟩ :=
    snapshot_builders_total_and_default_failing_domains "t" (.error ())
      (.error ()) (.error ()) true (.error ()) (.error ()) (.error ())
      (.error ()) (.error ()) (.error ()) (.error ()) (.error ())
      (.error ()) (.error ()) (.error ())
  exact ⟨h1 rfl, h2 rfl, h3 rfl, h4 rfl, h5 rfl,
         g1 rfl, g2 rfl, g3 rfl, g4 rfl, g5 rfl⟩

/-- C3.  For every set of host network interfaces (and I/O counters), the
network sequence of a snapshot never contains an entry for the loopback
interface `"lo"`: it is omitted, not marked, in both the one-shot
inventory variant (`get_network_info`) and the live metrics variant
(`get_network_data`). -/
theorem loopback_always_excluded_from_network_sequences
    (inv : Except Unit
      (List (String × List Probe.AddrSample) × List (String × Probe.IfStats)))
    (web : Except Unit
      (List (String × Probe.IOCounters) × List (String × Probe.IfStats))) :
    "lo" ∉ (Inventory.get_network_info inv).map Inventory.NetIfaceInfo.name ∧
    "lo" ∉ (WebServer.get_network_data web).map WebServer.NetEntry.name := by
  constructor
  · match inv with
    | .error _ => simp [Inventory.get_network_info]
    | .ok (addrs, stats) =>
        simp only [Inventory.get_network_info, List.mem_map,
          List.mem_filterMap]
        rintro ⟨e, ⟨pr, _, hrow⟩, hname⟩
        unfold Inventory.netIfaceRow at hrow
        by_cases h : pr.1 = "lo"
        · rw [if_pos h] at hrow
          exact Option.noConfusion hrow
        · rw [if_neg h] at hrow
          simp only [Option.some.injEq] at hrow
          subst hrow
          exact h hname
  · match web with
    | .error _ => simp [WebServer.get_network_data]
    | .ok (nio, stats) =>
        simp only [WebServer.get_network_data, List.mem_map,
          List.mem_filterMap]
        rintro ⟨e, ⟨pr, _, hrow⟩, hname⟩
        unfold WebServer.netRow at hrow
        by_cases h : pr.1 = "lo"
        · rw [if_pos h] at hrow
          exact Option.noConfusion hrow
        · rw [if_neg h] at hrow
          simp only [Option.some.injEq] at hrow
          subst hrow
          exact h hname

/-- C4.  For every set of mounted partitions: a partition whose usage
query fails (permission denied or otherwise) is silently omitted from the
disks sequence — the collectors are total, and every entry present stems
from a successful usage reading, so no error-marker entry exists — while
every readable partition in scope (all of them for the one-shot
`get_disk_info`, the first ten for the live `get_disk_data`) appears with
its device, mountpoint, fstype, total/used/free bytes and usage
percentage. -/
theorem permission_denied_partitions_silently_omitted
    (ps : List (Probe.Partition × Probe.UsageOutcome)) :
    (∀ e ∈ Inventory.get_disk_info (.ok ps), ∃ p u,
        (p, Probe.UsageOutcome.ok u) ∈ ps ∧
        e = { device := p.device, mountpoint := p.mountpoint,
              fstype := p.fstype, total_bytes := u.total,
              used_bytes := u.used, free_bytes := u.free,
              usage_percent := u.percent }) ∧
    (∀ p u, (p, Probe.UsageOutcome.ok u) ∈ ps →
        ({ device := p.device, mountpoint := p.mountpoint,
           fstype := p.fstype, total_bytes := u.total,
           used_bytes := u.used, free_bytes := u.free,
           usage_percent := u.percent } : Inventory.DiskInfoEntry) ∈
          Inventory.get_disk_info (.ok ps)) ∧
    (∀ e ∈ WebServer.get_disk_data (.ok ps), ∃ p u,
        (p, Probe.UsageOutcome.ok u) ∈ ps.take 10 ∧
        e = { device := p.device, mountpoint := p.mountpoint,
              fstype := p.fstype, total := u.total, used := u.used,
              free := u.free, percent := u.percent }) ∧
    (∀ p u, (p, Probe.UsageOutcome.ok u) ∈ ps.take 10 →
        ({ device := p.device, mountpoint := p.mountpoint,
           fstype := p.fstype, total := u.total, used := u.used,
           free := u.free, percent := u.percent } : WebServer.DiskEntry) ∈
          WebServer.get_disk_data (.ok ps)) := by
  refine ⟨?_, ?_, ?_, ?_⟩
  · intro e he
    simp only [Inventory.get_disk_info, List.mem_filterMap] at he
    obtain ⟨pr, hpr, hrow⟩ := he
    match hu : pr.2 with
    | .ok u =>
        refine ⟨pr.1, u, by rwa [← hu, Prod.mk.eta], ?_⟩
        rw [hu] at hrow
        unfold Inventory.diskInfoRow at hrow
        simp only [Option.some.injEq] at hrow
        exact hrow.symm
    | .permissionDenied => rw [hu] at hrow; exact Option.noConfusion hrow
    | .otherFailure => rw [hu] at hrow; exact Option.noConfusion hrow
  · intro p u hmem
    simp only [Inventory.get_disk_info, List.mem_filterMap]
    exact ⟨(p, .ok u), hmem, rfl⟩
  · intro e he
    simp only [WebServer.get_disk_data, List.mem_filterMap] at he
    obtain ⟨pr, hpr, hrow⟩ := he
    match hu : pr.2 with
    | .ok u =>
        refine ⟨pr.1, u, by rwa [← hu, Prod.mk.eta], ?_⟩
        rw [hu] at hrow
        unfold WebServer.diskRow at hrow
        simp only [Option.some.injEq] at hrow
        exact hrow.symm
    | .permissionDenied => rw [hu] at hrow; exact Option.noConfusion hrow
    | .otherFailure => rw [hu] at hrow; exact Option.noConfusion hrow
  · intro p u hmem
    simp only [WebServer.get_disk_data, List.mem_filterMap]
    exact ⟨(p, .ok u), hmem, rfl⟩

/-- Witness for C4: one readable partition next to one permission-denied
partition; the readable one's full entry is present. -/
theorem permission_denied_partitions_silently_omitted_witness :
    ({ device := "/dev/sda1", mountpoint := "/", fstype := "ext4",
       total_bytes := 100, used_bytes := 40, free_bytes := 60,
       usage_percent := 40 } : Inventory.DiskInfoEntry) ∈
      Inventory.get_disk_info (.ok
        [(⟨"/dev/sda1", "/", "ext4"⟩, .ok ⟨100, 40, 60, 40⟩),
         (⟨"/dev/sdb1", "/secret", "ext4"⟩, .permissionDenied)]) ∧
    ({ device := "/dev/sda1", mountpoint := "/", fstype := "ext4",
       total := 100, used := 40, free := 60,
       percent := 40 } : WebServer.DiskEntry) ∈
      WebServer.get_disk_data (.ok
        [(⟨"/dev/sda1", "/", "ext4"⟩, .ok ⟨100, 40, 60, 40⟩),
         (⟨"/dev/sdb1", "/secret", "ext4"⟩, .permissionDenied)]) := by
  have h := permission_denied_partitions_silently_omitted
    [(⟨"/dev/sda1", "/", "ext4"⟩, .ok ⟨100, 40, 60, 40⟩),
     (⟨"/dev/sdb1", "/secret", "ext4"⟩, .permissionDenied)]
  exact ⟨h.2.1 ⟨"/dev/sda1", "/", "ext4"⟩ ⟨100, 40, 60, 40⟩ (by decide),
         h.2.2.2 ⟨"/dev/sda1", "/", "ext4"⟩ ⟨100, 40, 60, 40⟩ (by decide)⟩

/-- C10.  The live-metrics collectors truncate to a fixed prefix of what
the OS reports: `get_disk_data` and `get_network_data` consider at most
the first 10 partitions/interfaces (their output has length ≤ 10, depends
only on the first 10 input entries, and entries appended beyond a full
prefix of 10 are ignored even when readable); the terminal dashboard
tables consider at most the first 5 of each; only the one-shot inventory
enumerates all entries (every readable partition yields an entry, and the
interface names are exactly all non-loopback names). -/
theorem live_collectors_truncate_to_fixed_prefix
    (pd : Except Unit (List (Probe.Partition × Probe.UsageOutcome)))
    (pn : Except Unit
      (List (String × Probe.IOCounters) × List (String × Probe.IfStats)))
    (ps : List (Probe.Partition × Probe.UsageOutcome))
    (io : List (String × Probe.IOCounters))
    (stats : List (String × Probe.IfStats))
    (addrs : List (String × List Probe.AddrSample)) :
    (WebServer.get_disk_data pd).length ≤ 10 ∧
    WebServer.get_disk_data (.ok ps) =
      WebServer.get_disk_data (.ok (ps.take 10)) ∧
    (ps.length = 10 → ∀ extra,
      WebServer.get_disk_data (.ok (ps ++ extra)) =
        WebServer.get_disk_data (.ok ps)) ∧
    (WebServer.get_network_data pn).length ≤ 10 ∧
    WebServer.get_network_data (.ok (io, stats)) =
      WebServer.get_network_data (.ok (io, stats.take 10)) ∧
    (Monitor.get_disk_table pd).length ≤ 5 ∧
    Monitor.get_disk_table (.ok ps) =
      Monitor.get_disk_table (.ok (ps.take 5)) ∧
    (Monitor.get_network_table pn).length ≤ 5 ∧
    Monitor.get_network_table (.ok (io, stats)) =
      Monitor.get_network_table (.ok (io, stats.take 5)) ∧
    (∀ p u, (p, Probe.UsageOutcome.ok u) ∈ ps →
        ({ device := p.device, mountpoint := p.mountpoint,
           fstype := p.fstype, total_bytes := u.total,
           used_bytes := u.used, free_bytes := u.free,
           usage_percent := u.percent } : Inventory.DiskInfoEntry) ∈
          Inventory.get_disk_info (.ok ps)) ∧
    (Inventory.get_network_info (.ok (addrs, stats))).map
        Inventory.NetIfaceInfo.name =
      (addrs.map Prod.fst).filter (fun nm => nm != "lo") := by
  refine ⟨?_, ?_, ?_, ?_, ?_, ?_, ?_, ?_, ?_, ?_, ?_⟩
  · match pd with
    | .error _ => simp [WebServer.get_disk_data]
    | .ok l =>
        calc (WebServer.get_disk_data (.ok l)).length
            ≤ (l.take 10).length := List.length_filterMap_le _ _
          _ ≤ 10 := by rw [List.length_take]; exact min_le_left _ _
  · simp [WebServer.get_disk_data, List.take_take]
  · intro h extra
    have h10 : ps.take 10 = ps := List.take_of_length_le (le_of_eq h)
    simp [WebServer.get_disk_data, List.take_append_eq_append_take, h, h10]
  · match pn with
    | .error _ => simp [WebServer.get_network_data]
    | .ok (nio, st) =>
        calc (WebServer.get_network_data (.ok (nio, st))).length
            ≤ (st.take 10).length := List.length_filterMap_le _ _
          _ ≤ 10 := by rw [List.length_take]; exact min_le_left _ _
  · simp [WebServer.get_network_data, List.take_take]
  · match pd with
    | .error _ => simp [Monitor.get_disk_table]
    | .ok l =>
        calc (Monitor.get_disk_table (.ok l)).length
            ≤ (l.take 5).length := List.length_filterMap_le _ _
          _ ≤ 5 := by rw [List.length_take]; exact min_le_left _ _
  · simp [Monitor.get_disk_table, List.take_take]
  · match pn with
    | .error _ => simp [Monitor.get_network_table]
    | .ok (nio, st) =>
        calc (Monitor.get_network_table (.ok (nio, st))).length
            ≤ (st.take 5).length := List.length_filterMap_le _ _
          _ ≤ 5 := by rw [List.length_take]; exact min_le_left _ _
  · simp [Monitor.get_network_table, List.take_take]
  · intro p u hmem
    simp only [Inventory.get_disk_info, List.mem_filterMap]
    exact ⟨(p, .ok u), hmem, rfl⟩
  · induction addrs with
    | nil => rfl
    | cons a rest ih =>
        simp only [Inventory.get_network_info, List.filterMap_cons,
          List.map_cons, List.filter_cons] at ih ⊢
        by_cases h : a.1 = "lo"
        · have hrow : Inventory.netIfaceRow stats a = none := by
            unfold Inventory.netIfaceRow; rw [if_pos h]
          have hb : (a.1 != "lo") = false := by simp [h]
          rw [hrow, hb, ih]
          simp
        · have hrow : Inventory.netIfaceRow stats a = some
              { name := a.1, addresses := a.2.map Inventory.addrInfoRow,
                is_up := match stats.lookup a.1 with
                         | some st => st.isup
                         | none => false,
                speed_mbps := match stats.lookup a.1 with
                              | some st => some st.speed
                              | none => none } := by
            unfold Inventory.netIfaceRow; rw [if_neg h]
          have hb : (a.1 != "lo") = true := by simp [h]
          rw [hrow, hb, List.map_cons, ih]
          simp

/-- Witness for C10: a full prefix of ten readable partitions; an
eleventh appended readable partition does not change the live output,
while the inventory variant does list a readable partition. -/
theorem live_collectors_truncate_to_fixed_prefix_witness :
    (WebServer.get_disk_data (.ok
        (List.replicate 10 ((⟨"/dev/sda1", "/", "ext4"⟩ : Probe.Partition),
            Probe.UsageOutcome.ok ⟨100, 40, 60, 40⟩) ++
          [(⟨"/dev/sdk1", "/data", "ext4"⟩, .ok ⟨100, 40, 60, 40⟩)])) =
      WebServer.get_disk_data (.ok
        (List.replicate 10 ((⟨"/dev/sda1", "/", "ext4"⟩ : Probe.Partition),
            Probe.UsageOutcome.ok ⟨100, 40, 60, 40⟩)))) ∧
    ({ device := "/dev/sda1", mountpoint := "/", fstype := "ext4",
       total_bytes := 100, used_bytes := 40, free_bytes := 60,
       usage_percent := 40 } : Inventory.DiskInfoEntry) ∈
      Inventory.get_disk_info (.ok
        (List.replicate 10 ((⟨"/dev/sda1", "/", "ext4"⟩ : Probe.Partition),
            Probe.UsageOutcome.ok ⟨100, 40, 60, 40⟩))) := by
  have h := live_collectors_truncate_to_fixed_prefix (.ok [])
    (.ok ([], []))
    (List.replicate 10 ((⟨"/dev/sda1", "/", "ext4"⟩ : Probe.Partition),
        Probe.UsageOutcome.ok ⟨100, 40, 60, 40⟩)) [] [] []
  exact ⟨h.2.2.1 (by decide) [(⟨"/dev/sdk1", "/data", "ext4"⟩,
            .ok ⟨100, 40, 60, 40⟩)],
         h.2.2.2.2.2.2.2.2.2.1 ⟨"/dev/sda1", "/", "ext4"⟩ ⟨100, 40, 60, 40⟩
           (by decide)⟩

namespace GpuUtils

/-- Inversion for the nvidia-smi metrics path: whenever it returns a
dict, that dict is the source's literal — six fixed keys in order, with
both memory values converted from whole MiB to bytes. -/
theorem get_gpu_metrics_nvidia_smi_inversion
    (index : ℤ) (oCheck oRun : SubOutcome) (d : MetricsDict)
    (hd : (get_gpu_metrics_nvidia_smi index oCheck oRun).1 = some d) :
    ∃ (util temp pw : ℚ) (mu mt : ℤ),
      d = [("utilization", .num util),
           ("temperature", .num temp),
           ("memory_used", .num ((mu * 1024 * 1024 : ℤ) : ℚ)),
           ("memory_total", .num ((mt * 1024 * 1024 : ℤ) : ℚ)),
           ("memory_percent",
             .num (memPercent ((mu * 1024 * 1024 : ℤ) : ℚ)
               ((mt * 1024 * 1024 : ℤ) : ℚ))),
           ("power", .num pw)] := by
  unfold get_gpu_metrics_nvidia_smi at hd
  match oCheck with
  | .timedOut => simp [check_nvidia_smi] at hd
  | .notFound => simp [check_nvidia_smi] at hd
  | .subErr => simp [check_nvidia_smi] at hd
  | .completed rc0 out0 =>
    by_cases h0 : rc0 = 0
    · simp only [check_nvidia_smi, h0] at hd
      match oRun with
      | .timedOut => simp at hd
      | .notFound => simp at hd
      | .subErr => simp at hd
      | .completed rc out =>
        by_cases hrc : rc = 0
        · simp [hrc] at hd
          split at hd
          · split at hd
            · rename_i util temp mu mt pw e1 e2 e3 e4 e5
              simp only [Option.some.injEq] at hd
              refine ⟨util, temp, pw, mu, mt, ?_⟩
              push_cast
              exact hd.symm
            · simp at hd
          · simp at hd
        · simp [hrc] at hd
    · simp [check_nvidia_smi, h0] at hd

end GpuUtils

/-- C5.  GPU probing first attempts the in-process vendor library
(pynvml) and falls back to invoking the vendor CLI (nvidia-smi) when the
primary is absent or errors, and the two metric paths normalize to the
same GPU entry shape: both dicts carry exactly the keys `utilization`,
`temperature`, `memory_used`, `memory_total`, `memory_percent`, `power`
in the same order, with the CLI path's memory converted from MiB to
bytes, so a caller of `get_gpu_metrics` / `get_gpu_info` cannot tell from
the result's shape which path produced it. -/
theorem gpu_probe_paths_normalize_to_same_shape
    (s : GpuUtils.PynvmlMetricsSample) (index : ℤ)
    (oCheck oRun oC oV oG : GpuUtils.SubOutcome)
    (py : Except Unit GpuUtils.PynvmlMetricsSample)
    (init : Except Unit (List (Except Unit GpuUtils.PynvmlDeviceSample))) :
    (GpuUtils.pynvmlMetricsDict s).map Prod.fst = GpuUtils.gpuMetricKeys ∧
    (∀ d, (GpuUtils.get_gpu_metrics_nvidia_smi index oCheck oRun).1 = some d →
        d.map Prod.fst = GpuUtils.gpuMetricKeys) ∧
    (∀ d, (GpuUtils.get_gpu_metrics_nvidia_smi index oCheck oRun).1 = some d →
        ∃ mu mt : ℤ,
          GpuUtils.dictGet d "memory_used" .null =
            .num ((mu * 1024 * 1024 : ℤ) : ℚ) ∧
          GpuUtils.dictGet d "memory_total" .null =
            .num ((mt * 1024 * 1024 : ℤ) : ℚ)) ∧
    GpuUtils.get_gpu_metrics false py index oCheck oRun =
      GpuUtils.get_gpu_metrics_nvidia_smi index oCheck oRun ∧
    GpuUtils.get_gpu_metrics true (.error ()) index oCheck oRun =
      GpuUtils.get_gpu_metrics_nvidia_smi index oCheck oRun ∧
    GpuUtils.get_gpu_metrics true (.ok s) index oCheck oRun =
      (some (GpuUtils.pynvmlMetricsDict s), []) ∧
    GpuUtils.get_gpu_info false init oC oV oG =
      GpuUtils.get_gpu_info_nvidia_smi oC oV oG ∧
    GpuUtils.get_gpu_info true (.error ()) oC oV oG =
      GpuUtils.get_gpu_info_nvidia_smi oC oV oG := by
  refine ⟨rfl, ?_, ?_, rfl, rfl, rfl, rfl, rfl⟩
  · intro d hd
    obtain ⟨util, temp, pw, mu, mt, hdeq⟩ :=
      GpuUtils.get_gpu_metrics_nvidia_smi_inversion index oCheck oRun d hd
    subst hdeq
    rfl
  · intro d hd
    obtain ⟨util, temp, pw, mu, mt, hdeq⟩ :=
      GpuUtils.get_gpu_metrics_nvidia_smi_inversion index oCheck oRun d hd
    subst hdeq
    exact ⟨mu, mt, rfl, rfl⟩

/-- Witness for C5: a concrete pynvml sample next to a concrete
nvidia-smi CSV reply `"1,2,3,4,5"`; the CLI path's dict has the same six
keys as the library path's. -/
theorem gpu_probe_paths_normalize_to_same_shape_witness :
    ((GpuUtils.get_gpu_metrics_nvidia_smi 0 (.completed 0 "")
        (.completed 0 "1,2,3,4,5")).1.map
      (fun d => d.map Prod.fst)) = some GpuUtils.gpuMetricKeys ∧
    (GpuUtils.pynvmlMetricsDict
        ⟨50, some 60, 1000, 2000, some 150000⟩).map Prod.fst =
      GpuUtils.gpuMetricKeys := by
  have h := gpu_probe_paths_normalize_to_same_shape
    ⟨50, some 60, 1000, 2000, some 150000⟩ 0 (.completed 0 "")
    (.completed 0 "1,2,3,4,5") (.completed 0 "")
    (.completed 0 "") (.completed 0 "") (.error ()) (.error ())
  have hsome : (GpuUtils.get_gpu_metrics_nvidia_smi 0 (.completed 0 "")
      (.completed 0 "1,2,3,4,5")).1 =
      some [("utilization", .num 1), ("temperature", .num 2),
            ("memory_used", .num ((3145728 : ℤ) : ℚ)),
            ("memory_total", .num ((4194304 : ℤ) : ℚ)),
            ("memory_percent",
              .num (GpuUtils.memPercent ((3145728 : ℤ) : ℚ)
                ((4194304 : ℤ) : ℚ))),
            ("power", .num 5)] := rfl
  refine ⟨?_, h.1⟩
  rw [hsome]
  exact congrArg some (h.2.1 _ hsome)

namespace GpuUtils

/-- Every subprocess call issued by `get_gpu_info_nvidia_smi` is one of
its three fixed invocations. -/
theorem get_gpu_info_nvidia_smi_trace_subset (oC oV oG : SubOutcome) :
    ∀ c ∈ (get_gpu_info_nvidia_smi oC oV oG).2,
      c = checkCall ∨ c = versionQueryCall ∨ c = gpuQueryCall := by
  intro c hc
  match oC with
  | .timedOut => simp [get_gpu_info_nvidia_smi, check_nvidia_smi] at hc; simp [hc]
  | .notFound => simp [get_gpu_info_nvidia_smi, check_nvidia_smi] at hc; simp [hc]
  | .subErr => simp [get_gpu_info_nvidia_smi, check_nvidia_smi] at hc; simp [hc]
  | .completed rc0 out0 =>
    by_cases h0 : rc0 = 0
    · match oV with
      | .timedOut =>
          simp [get_gpu_info_nvidia_smi, check_nvidia_smi, h0] at hc
          rcases hc with h | h <;> simp [h]
      | .notFound =>
          simp [get_gpu_info_nvidia_smi, check_nvidia_smi, h0] at hc
          rcases hc with h | h <;> simp [h]
      | .subErr =>
          simp [get_gpu_info_nvidia_smi, check_nvidia_smi, h0] at hc
          rcases hc with h | h <;> simp [h]
      | .completed rc out =>
        by_cases hrc : rc = 0
        · match oG with
          | .timedOut =>
              simp [get_gpu_info_nvidia_smi, check_nvidia_smi, h0, hrc] at hc
              rcases hc with h | h | h <;> simp [h]
          | .notFound =>
              simp [get_gpu_info_nvidia_smi, check_nvidia_smi, h0, hrc] at hc
              rcases hc with h | h | h <;> simp [h]
          | .subErr =>
              simp [get_gpu_info_nvidia_smi, check_nvidia_smi, h0, hrc] at hc
              rcases hc with h | h | h <;> simp [h]
          | .completed rc2 out2 =>
              by_cases hrc2 : rc2 = 0 <;>
                [skip; skip] <;>
                simp [get_gpu_info_nvidia_smi, check_nvidia_smi, h0, hrc,
                  hrc2] at hc <;>
                rcases hc with h | h | h <;> simp [h]
        · simp [get_gpu_info_nvidia_smi, check_nvidia_smi, h0, hrc] at hc
          rcases hc with h | h <;> simp [h]
    · simp [get_gpu_info_nvidia_smi, check_nvidia_smi, h0] at hc
      simp [hc]

/-- Every subprocess call issued by `get_gpu_metrics_nvidia_smi` is one
of its two fixed invocations. -/
theorem get_gpu_metrics_nvidia_smi_trace_subset (index : ℤ)
    (oC oR : SubOutcome) :
    ∀ c ∈ (get_gpu_metrics_nvidia_smi index oC oR).2,
      c = checkCall ∨ c = metricsQueryCall index := by
  intro c hc
  match oC with
  | .timedOut =>
      simp [get_gpu_metrics_nvidia_smi, check_nvidia_smi] at hc; simp [hc]
  | .notFound =>
      simp [get_gpu_metrics_nvidia_smi, check_nvidia_smi] at hc; simp [hc]
  | .subErr =>
      simp [get_gpu_metrics_nvidia_smi, check_nvidia_smi] at hc; simp [hc]
  | .completed rc0 out0 =>
    by_cases h0 : rc0 = 0
    · match oR with
      | .timedOut =>
          simp [get_gpu_metrics_nvidia_smi, check_nvidia_smi, h0] at hc
          rcases hc with h | h <;> simp [h]
      | .notFound =>
          simp [get_gpu_metrics_nvidia_smi, check_nvidia_smi, h0] at hc
          rcases hc with h | h <;> simp [h]
      | .subErr =>
          simp [get_gpu_metrics_nvidia_smi, check_nvidia_smi, h0] at hc
          rcases hc with h | h <;> simp [h]
      | .completed rc out =>
        by_cases hrc : rc = 0
        · simp only [get_gpu_metrics_nvidia_smi, check_nvidia_smi, h0,
            hrc] at hc
          simp at hc
          split at hc
          · split at hc <;> (simp at hc; exact hc)
          · simp at hc; exact hc
        · simp [get_gpu_metrics_nvidia_smi, check_nvidia_smi, h0, hrc] at hc
          rcases hc with h | h <;> simp [h]
    · simp [get_gpu_metrics_nvidia_smi, check_nvidia_smi, h0] at hc
      simp [hc]

end GpuUtils

/-- C6.  Every external-process invocation made by the GPU probe
(the `nvidia-smi` check, the two device-info queries, and the metrics
query) carries `timeout=5` seconds — at most the 5-second bound — and
when an invocation times out the probe returns its documented
Unavailable value: `False` from the check, `(None, None, [])` from
`get_gpu_info_nvidia_smi`, and `None` from `get_gpu_metrics_nvidia_smi`,
instead of raising or blocking. -/
theorem gpu_probe_calls_bounded_timeout_and_timeout_unavailable
    (index : ℤ) (o oCheck oVer oGpu oRun : GpuUtils.SubOutcome) :
    (∀ c ∈ (GpuUtils.check_nvidia_smi o).2, c.timeout = some 5) ∧
    (∀ c ∈ (GpuUtils.get_gpu_info_nvidia_smi oCheck oVer oGpu).2,
      c.timeout = some 5) ∧
    (∀ c ∈ (GpuUtils.get_gpu_metrics_nvidia_smi index oCheck oRun).2,
      c.timeout = some 5) ∧
    (GpuUtils.check_nvidia_smi .timedOut).1 = false ∧
    (GpuUtils.get_gpu_info_nvidia_smi .timedOut oVer oGpu).1 =
      (none, none, []) ∧
    (GpuUtils.get_gpu_info_nvidia_smi oCheck .timedOut oGpu).1 =
      (none, none, []) ∧
    (GpuUtils.get_gpu_info_nvidia_smi oCheck oVer .timedOut).1 =
      (none, none, []) ∧
    (GpuUtils.get_gpu_metrics_nvidia_smi index .timedOut oRun).1 = none ∧
    (GpuUtils.get_gpu_metrics_nvidia_smi index oCheck .timedOut).1 =
      none := by
  refine ⟨?_, ?_, ?_, rfl, rfl, ?_, ?_, rfl, ?_⟩
  · intro c hc
    match o with
    | .completed rc out =>
        simp [GpuUtils.check_nvidia_smi] at hc; subst hc; rfl
    | .timedOut => simp [GpuUtils.check_nvidia_smi] at hc; subst hc; rfl
    | .notFound => simp [GpuUtils.check_nvidia_smi] at hc; subst hc; rfl
    | .subErr => simp [GpuUtils.check_nvidia_smi] at hc; subst hc; rfl
  · intro c hc
    rcases GpuUtils.get_gpu_info_nvidia_smi_trace_subset oCheck oVer oGpu
      c hc with h | h | h <;> subst h <;> rfl
  · intro c hc
    rcases GpuUtils.get_gpu_metrics_nvidia_smi_trace_subset index oCheck
      oRun c hc with h | h <;> subst h <;> rfl
  · match oCheck with
    | .timedOut => rfl
    | .notFound => rfl
    | .subErr => rfl
    | .completed rc0 out0 =>
        by_cases h0 : rc0 = 0 <;>
          simp [GpuUtils.get_gpu_info_nvidia_smi, GpuUtils.check_nvidia_smi,
            h0]
  · match oCheck with
    | .timedOut => rfl
    | .notFound => rfl
    | .subErr => rfl
    | .completed rc0 out0 =>
        by_cases h0 : rc0 = 0
        · match oVer with
          | .timedOut =>
              simp [GpuUtils.get_gpu_info_nvidia_smi,
                GpuUtils.check_nvidia_smi, h0]
          | .notFound =>
              simp [GpuUtils.get_gpu_info_nvidia_smi,
                GpuUtils.check_nvidia_smi, h0]
          | .subErr =>
              simp [GpuUtils.get_gpu_info_nvidia_smi,
                GpuUtils.check_nvidia_smi, h0]
          | .completed rc out =>
              by_cases hrc : rc = 0 <;>
                simp [GpuUtils.get_gpu_info_nvidia_smi,
                  GpuUtils.check_nvidia_smi, h0, hrc]
        · simp [GpuUtils.get_gpu_info_nvidia_smi,
            GpuUtils.check_nvidia_smi, h0]
  · match oCheck with
    | .timedOut => rfl
    | .notFound => rfl
    | .subErr => rfl
    | .completed rc0 out0 =>
        by_cases h0 : rc0 = 0 <;>
          simp [GpuUtils.get_gpu_metrics_nvidia_smi,
            GpuUtils.check_nvidia_smi, h0]

/-- Witness for C6: concrete outcomes under which each of the three
invocation kinds actually appears in a trace, each carrying
`timeout=5`. -/
theorem gpu_probe_calls_bounded_timeout_and_timeout_unavailable_witness :
    GpuUtils.checkCall.timeout = some 5 ∧
    GpuUtils.versionQueryCall.timeout = some 5 ∧
    (GpuUtils.metricsQueryCall 0).timeout = some 5 := by
  have h := gpu_probe_calls_bounded_timeout_and_timeout_unavailable 0
    (.completed 0 "") (.completed 0 "") .timedOut .timedOut .timedOut
  exact ⟨h.1 GpuUtils.checkCall (by decide),
         h.2.1 GpuUtils.versionQueryCall (by decide),
         h.2.2.1 (GpuUtils.metricsQueryCall 0) (by decide)⟩

/-- C7 counterexample.  The snapshot's `usage_percent` is the probe's
`percent` field verbatim, not a value computed from the probe's `used`
and `total` bytes: a probe sample reporting total=16000000000 and
used=8000000000 but `percent = 77` (psutil derives `percent` from
`available`, not from `used`) yields `usage_percent = 77`, not ≈ 50. -/
theorem memory_percent_not_determined_by_used_and_total :
    (Inventory.get_memory_info (.ok
        (⟨16000000000, 4000000000, 8000000000, 77⟩, ⟨0, 0, 0⟩))).usage_percent
      = 77 ∧
    ¬ |(Inventory.get_memory_info (.ok
        (⟨16000000000, 4000000000, 8000000000, 77⟩,
         ⟨0, 0, 0⟩))).usage_percent - 50| ≤ 1 := by
  refine ⟨rfl, ?_⟩
  have h : (Inventory.get_memory_info (.ok
      (⟨16000000000, 4000000000, 8000000000, 77⟩,
       ⟨0, 0, 0⟩))).usage_percent = 77 := rfl
  rw [h]
  norm_num

/-- C7 amended.  The snapshot's `usage_percent` equals the memory probe's
`percent` reading verbatim (in both the one-shot and live variants); in
particular, when the probe's `percent` is consistent with its byte
readings (`percent = used / total * 100`) and the probe reports
total=16000000000 and used=8000000000, the snapshot reports exactly
50. -/
theorem memory_usage_percent_is_probe_percent_passthrough
    (m : Probe.MemSample) (s : Probe.SwapSample) :
    (Inventory.get_memory_info (.ok (m, s))).usage_percent = m.percent ∧
    (WebServer.get_memory_data (.ok (m, s))).percent = m.percent ∧
    (m.percent = (m.used : ℚ) / (m.total : ℚ) * 100 →
      m.total = 16000000000 → m.used = 8000000000 →
      (Inventory.get_memory_info (.ok (m, s))).usage_percent = 50) := by
  refine ⟨rfl, rfl, ?_⟩
  intro h1 h2 h3
  have hp : (Inventory.get_memory_info (.ok (m, s))).usage_percent =
      m.percent := rfl
  rw [hp, h1, h2, h3]
  norm_num

/-- Witness for C7's amended claim: a probe sample whose `percent` is
consistent with total=16000000000, used=8000000000 yields exactly 50. -/
theorem memory_usage_percent_is_probe_percent_passthrough_witness :
    (Inventory.get_memory_info (.ok
        (⟨16000000000, 8000000000, 8000000000, 50⟩,
         ⟨0, 0, 0⟩))).usage_percent = 50 :=
  (memory_usage_percent_is_probe_percent_passthrough
      ⟨16000000000, 8000000000, 8000000000, 50⟩ ⟨0, 0, 0⟩).2.2
    (by norm_num) rfl rfl

namespace Probe

/-- A successful association-list lookup returns a stored pair. -/
theorem mem_of_lookup_eq_some {β : Type} (k : String) (b : β) :
    ∀ (l : List (String × β)), l.lookup k = some b → (k, b) ∈ l := by
  intro l
  induction l with
  | nil => intro h; simp [List.lookup] at h
  | cons a es ih =>
      intro h
      rw [List.lookup] at h
      split at h
      · rename_i heq
        simp only [Option.some.injEq] at h
        subst h
        have hk : k = a.1 := eq_of_beq heq
        rw [hk, Prod.mk.eta]
        exact List.mem_cons_self a es
      · exact List.mem_cons_of_mem _ (ih h)

end Probe

/-- C8 counterexample.  The collectors perform no clamping: a memory
probe reporting `percent = 150` yields a snapshot whose memory `percent`
is 150, outside `[0,100]` — so percentage ranges are *not* guaranteed
regardless of what the underlying probes report. -/
theorem snapshot_percent_not_clamped_counterexample :
    (WebServer.get_memory_data (.ok (⟨0, 0, 0, 150⟩, ⟨0, 0, 0⟩))).percent
      = 150 ∧
    ¬ (WebServer.get_memory_data
        (.ok (⟨0, 0, 0, 150⟩, ⟨0, 0, 0⟩))).percent ≤ 100 := by
  refine ⟨rfl, ?_⟩
  have h : (WebServer.get_memory_data
      (.ok (⟨0, 0, 0, 150⟩, ⟨0, 0, 0⟩))).percent = 150 := rfl
  rw [h]
  norm_num

/-- C8 amended.  The snapshot's percentage and byte fields are
pass-throughs of (or directly computed from) the probe readings, with no
clamping; whenever each probe reports percentages in `[0,100]` and
non-negative byte counts (and GPU memory used ≤ total), every
corresponding field of `get_all_metrics` lies in `[0,100]` / is
non-negative — including the GPU `memory_percent` that `get_gpu_metrics`
computes as `used/total*100` (0 when total = 0). -/
theorem snapshot_ranges_hold_when_probes_in_range
    (m : Probe.MemSample) (s : Probe.SwapSample) (c : WebServer.CpuSample)
    (f : Except Unit (Option Probe.FreqSample))
    (ps : List (Probe.Partition × Probe.UsageOutcome))
    (io : List (String × Probe.IOCounters))
    (stats : List (String × Probe.IfStats))
    (pg : Except Unit (List (GpuUtils.GPUInfo × Option GpuUtils.MetricsDict)))
    (g : GpuUtils.PynvmlMetricsSample) :
    (0 ≤ m.percent → m.percent ≤ 100 → 0 ≤ s.percent → s.percent ≤ 100 →
      0 ≤ m.total → 0 ≤ m.available → 0 ≤ m.used → 0 ≤ s.total →
      0 ≤ s.used →
      (0 ≤ (WebServer.get_all_metrics (.ok c) f (.ok (m, s)) (.ok ps)
          (.ok (io, stats)) pg).memory.percent ∧
       (WebServer.get_all_metrics (.ok c) f (.ok (m, s)) (.ok ps)
          (.ok (io, stats)) pg).memory.percent ≤ 100 ∧
       0 ≤ (WebServer.get_all_metrics (.ok c) f (.ok (m, s)) (.ok ps)
          (.ok (io, stats)) pg).memory.swap_percent ∧
       (WebServer.get_all_metrics (.ok c) f (.ok (m, s)) (.ok ps)
          (.ok (io, stats)) pg).memory.swap_percent ≤ 100 ∧
       0 ≤ (WebServer.get_all_metrics (.ok c) f (.ok (m, s)) (.ok ps)
          (.ok (io, stats)) pg).memory.total ∧
       0 ≤ (WebServer.get_all_metrics (.ok c) f (.ok (m, s)) (.ok ps)
          (.ok (io, stats)) pg).memory.available ∧
       0 ≤ (WebServer.get_all_metrics (.ok c) f (.ok (m, s)) (.ok ps)
          (.ok (io, stats)) pg).memory.used ∧
       0 ≤ (WebServer.get_all_metrics (.ok c) f (.ok (m, s)) (.ok ps)
          (.ok (io, stats)) pg).memory.swap_total ∧
       0 ≤ (WebServer.get_all_metrics (.ok c) f (.ok (m, s)) (.ok ps)
          (.ok (io, stats)) pg).memory.swap_used)) ∧
    ((∀ q ∈ c.per_cpu, 0 ≤ q ∧ q ≤ 100) → 0 ≤ c.overall →
      c.overall ≤ 100 →
      (∀ q ∈ (WebServer.get_all_metrics (.ok c) f (.ok (m, s)) (.ok ps)
          (.ok (io, stats)) pg).cpu.per_core, 0 ≤ q ∧ q ≤ 100) ∧
      0 ≤ (WebServer.get_all_metrics (.ok c) f (.ok (m, s)) (.ok ps)
          (.ok (io, stats)) pg).cpu.overall ∧
      (WebServer.get_all_metrics (.ok c) f (.ok (m, s)) (.ok ps)
          (.ok (io, stats)) pg).cpu.overall ≤ 100) ∧
    ((∀ pr ∈ ps, ∀ u, pr.2 = Probe.UsageOutcome.ok u →
        0 ≤ u.percent ∧ u.percent ≤ 100 ∧ 0 ≤ u.total ∧ 0 ≤ u.used ∧
        0 ≤ u.free) →
      ∀ e ∈ (WebServer.get_all_metrics (.ok c) f (.ok (m, s)) (.ok ps)
          (.ok (io, stats)) pg).disks,
        0 ≤ e.percent ∧ e.percent ≤ 100 ∧ 0 ≤ e.total ∧ 0 ≤ e.used ∧
        0 ≤ e.free) ∧
    ((∀ pr ∈ io, 0 ≤ pr.2.bytes_sent ∧ 0 ≤ pr.2.bytes_recv) →
      ∀ e ∈ (WebServer.get_all_metrics (.ok c) f (.ok (m, s)) (.ok ps)
          (.ok (io, stats)) pg).network,
        0 ≤ e.bytes_sent ∧ 0 ≤ e.bytes_recv) ∧
    (0 ≤ g.util_gpu → g.util_gpu ≤ 100 → 0 ≤ g.memory_used →
      g.memory_used ≤ g.memory_total →
      GpuUtils.dictGet (GpuUtils.pynvmlMetricsDict g) "utilization" .null =
        .num g.util_gpu ∧
      0 ≤ GpuUtils.memPercent g.memory_used g.memory_total ∧
      GpuUtils.memPercent g.memory_used g.memory_total ≤ 100) := by
  refine ⟨?_, ?_, ?_, ?_, ?_⟩
  · intro h1 h2 h3 h4 h5 h6 h7 h8 h9
    exact ⟨h1, h2, h3, h4, h5, h6, h7, h8, h9⟩
  · intro hpc ho1 ho2
    exact ⟨hpc, ho1, ho2⟩
  · intro hps e he
    simp only [WebServer.get_all_metrics, WebServer.get_disk_data,
      List.mem_filterMap] at he
    obtain ⟨pr, hpr, hrow⟩ := he
    have hpr' : pr ∈ ps := List.mem_of_mem_take hpr
    match hu : pr.2 with
    | .ok u =>
        rw [hu] at hrow
        unfold WebServer.diskRow at hrow
        simp only [Option.some.injEq] at hrow
        subst hrow
        exact hps pr hpr' u hu
    | .permissionDenied => rw [hu] at hrow; exact Option.noConfusion hrow
    | .otherFailure => rw [hu] at hrow; exact Option.noConfusion hrow
  · intro hio e he
    simp only [WebServer.get_all_metrics, WebServer.get_network_data,
      List.mem_filterMap] at he
    obtain ⟨pr, hpr, hrow⟩ := he
    unfold WebServer.netRow at hrow
    by_cases h : pr.1 = "lo"
    · rw [if_pos h] at hrow; exact Option.noConfusion hrow
    · rw [if_neg h] at hrow
      simp only [Option.some.injEq] at hrow
      subst hrow
      constructor
      · show (0 : ℤ) ≤ (match io.lookup pr.1 with
          | some cc => cc.bytes_sent
          | none => (0 : ℤ))
        match hl : io.lookup pr.1 with
        | some cc =>
            exact (hio (pr.1, cc)
              (Probe.mem_of_lookup_eq_some pr.1 cc io hl)).1
        | none => exact le_refl 0
      · show (0 : ℤ) ≤ (match io.lookup pr.1 with
          | some cc => cc.bytes_recv
          | none => (0 : ℤ))
        match hl : io.lookup pr.1 with
        | some cc =>
            exact (hio (pr.1, cc)
              (Probe.mem_of_lookup_eq_some pr.1 cc io hl)).2
        | none => exact le_refl 0
  · intro hu1 hu2 hm1 hm2
    refine ⟨rfl, ?_, ?_⟩
    · unfold GpuUtils.memPercent
      by_cases ht : g.memory_total > 0
      · rw [if_pos ht]
        have := div_nonneg hm1 (le_of_lt ht)
        positivity
      · rw [if_neg ht]
    · unfold GpuUtils.memPercent
      by_cases ht : g.memory_total > 0
      · rw [if_pos ht]
        calc g.memory_used / g.memory_total * 100
            ≤ 1 * 100 := by
              apply mul_le_mul_of_nonneg_right _ (by norm_num)
              exact (div_le_one ht).mpr hm2
          _ = 100 := one_mul 100
      · rw [if_neg ht]; norm_num

/-- Witness for C8's amended claim: with every probe reading in range,
the snapshot's memory percentages, CPU percentages, disk entries,
network counters and the GPU metric dict all satisfy the bounds. -/
theorem snapshot_ranges_hold_when_probes_in_range_witness :
    (0 ≤ (WebServer.get_all_metrics (.ok ⟨[10, 20], 30⟩) (.ok none)
        (.ok (⟨100, 60, 40, 40⟩, ⟨50, 25, 50⟩))
        (.ok [(⟨"/dev/sda1", "/", "ext4"⟩, .ok ⟨100, 40, 60, 40⟩)])
        (.ok ([("eth0", ⟨7, 9⟩)], [("eth0", ⟨true, 1000⟩)]))
        (.error ())).memory.percent) ∧
    (∀ q ∈ (WebServer.get_all_metrics (.ok ⟨[10, 20], 30⟩) (.ok none)
        (.ok (⟨100, 60, 40, 40⟩, ⟨50, 25, 50⟩))
        (.ok [(⟨"/dev/sda1", "/", "ext4"⟩, .ok ⟨100, 40, 60, 40⟩)])
        (.ok ([("eth0", ⟨7, 9⟩)], [("eth0", ⟨true, 1000⟩)]))
        (.error ())).cpu.per_core, 0 ≤ q ∧ q ≤ 100) ∧
    (∀ e ∈ (WebServer.get_all_metrics (.ok ⟨[10, 20], 30⟩) (.ok none)
        (.ok (⟨100, 60, 40, 40⟩, ⟨50, 25, 50⟩))
        (.ok [(⟨"/dev/sda1", "/", "ext4"⟩, .ok ⟨100, 40, 60, 40⟩)])
        (.ok ([("eth0", ⟨7, 9⟩)], [("eth0", ⟨true, 1000⟩)]))
        (.error ())).disks,
      0 ≤ e.percent ∧ e.percent ≤ 100 ∧ 0 ≤ e.total ∧ 0 ≤ e.used ∧
      0 ≤ e.free) ∧
    (∀ e ∈ (WebServer.get_all_metrics (.ok ⟨[10, 20], 30⟩) (.ok none)
        (.ok (⟨100, 60, 40, 40⟩, ⟨50, 25, 50⟩))
        (.ok [(⟨"/dev/sda1", "/", "ext4"⟩, .ok ⟨100, 40, 60, 40⟩)])
        (.ok ([("eth0", ⟨7, 9⟩)], [("eth0", ⟨true, 1000⟩)]))
        (.error ())).network,
      0 ≤ e.bytes_sent ∧ 0 ≤ e.bytes_recv) ∧
    (0 ≤ GpuUtils.memPercent (1000 : ℚ) 2000 ∧
      GpuUtils.memPercent (1000 : ℚ) 2000 ≤ 100) := by
  have h := snapshot_ranges_hold_when_probes_in_range
    ⟨100, 60, 40, 40⟩ ⟨50, 25, 50⟩ ⟨[10, 20], 30⟩ (.ok none)
    [(⟨"/dev/sda1", "/", "ext4"⟩, .ok ⟨100, 40, 60, 40⟩)]
    [("eth0", ⟨7, 9⟩)] [("eth0", ⟨true, 1000⟩)] (.error ())
    ⟨50, some 60, 1000, 2000, some 150000⟩
  have hmem := h.1 (by norm_num) (by norm_num) (by norm_num) (by norm_num)
    (by norm_num) (by norm_num) (by norm_num) (by norm_num) (by norm_num)
  have hcpu := h.2.1 (by
      intro q hq
      simp only [List.mem_cons, List.not_mem_nil, or_false] at hq
      rcases hq with rfl | rfl <;> exact ⟨by norm_num, by norm_num⟩)
    (by norm_num) (by norm_num)
  have hdisk := h.2.2.1 (by
      intro pr hpr u hu
      simp only [List.mem_cons, List.not_mem_nil, or_false] at hpr
      subst hpr
      cases hu
      exact ⟨by norm_num, by norm_num, by norm_num, by norm_num,
        by norm_num⟩)
  have hnet := h.2.2.2.1 (by
      intro pr hpr
      simp only [List.mem_cons, List.not_mem_nil, or_false] at hpr
      subst hpr
      exact ⟨by norm_num, by norm_num⟩)
  have hgpu := h.2.2.2.2 (by norm_num) (by norm_num) (by norm_num)
    (by norm_num)
  exact ⟨hmem.1, hcpu.1, hdisk, hnet, ⟨hgpu.2.1, hgpu.2.2⟩⟩

/-- Witness for C3: concrete interface sets containing `"lo"`; neither
variant's output mentions it. -/
theorem loopback_always_excluded_from_network_sequences_witness :
    "lo" ∉ (Inventory.get_network_info
        (.ok ([("lo", []), ("eth0", [])], []))).map
      Inventory.NetIfaceInfo.name ∧
    "lo" ∉ (WebServer.get_network_data
        (.ok ([], [("lo", ⟨true, 0⟩), ("eth0", ⟨true, 0⟩)]))).map
      WebServer.NetEntry.name :=
  loopback_always_excluded_from_network_sequences
    (.ok ([("lo", []), ("eth0", [])], []))
    (.ok ([], [("lo", ⟨true, 0⟩), ("eth0", ⟨true, 0⟩)]))
